import Mathlib

/-!
# Cinderella viewer (`Cinderella/src/CinderellaApp.cpp`)

A shallow embedding of the application class `CinderellaApp`: its member
variables become the record `CinderellaApp`, its member functions become
state-passing programs in the monad `M`.

The application is written against the Cinder framework.  Framework calls are
not part of the application source, so they are taken as the fields of a
record `Cinder` (one field per framework function the application calls) and
every theorem is stated for an arbitrary such record.  A framework call that
can raise a C++ exception returns `Except Exc _`.  The monad keeps the member
variables as they are at the moment of a throw, because a C++ exception leaves
the assignments made before it in place.

Every framework call the application makes is also appended to a call log, in
program order, so that statements about *which* calls are made and in *which
order* (the GL command stream of `draw`, the controller an event is forwarded
to) can be stated.

`float` members hold the decimal value of the literal they are assigned
(`2.2f` is `2.2 : ℚ`); the application performs no arithmetic on them.
-/

namespace Cinderella

/-! ## Framework value types -/

/-- A C++ `float`, kept as the rational its literal denotes. -/
abbrev Scalar := ℚ

/-- The type `ivec2` / `vec2`. -/
structure Vec2 where
  x : Scalar
  y : Scalar
  deriving DecidableEq

/-- The type `vec3`. -/
structure Vec3 where
  x : Scalar
  y : Scalar
  z : Scalar
  deriving DecidableEq

/-- The type `quat`. -/
structure Quat where
  w : Scalar
  x : Scalar
  y : Scalar
  z : Scalar
  deriving DecidableEq

/-- The type `ci::Sphere`: centre and radius. -/
structure Sphere where
  center : Vec3
  radius : Scalar
  deriving DecidableEq

/-- The type `ci::Color`. -/
structure Color where
  r : Scalar
  g : Scalar
  b : Scalar
  deriving DecidableEq

/-- The expression `vec3(s)`: all three components equal to `s`. -/
def Vec3.splat (s : Scalar) : Vec3 := ⟨s, s, s⟩

/-- Modelled from the spec: the error taxonomy of §7, standing for the C++
exceptions the framework calls may raise (the exception classes themselves
belong to the framework). -/
inductive Exc
  | AssetUnreadable
  | MalformedGeometry
  | EmptyGeometry
  | ShaderCompileError
  | UnsupportedFormat
  deriving DecidableEq

/-- The enumeration `geom::Attrib` (the members an OBJ file can provide). -/
inductive Attrib
  | POSITION
  | COLOR
  | TEX_COORD_0
  | NORMAL
  | TANGENT
  | BITANGENT
  deriving DecidableEq

/-- A `DataSourceRef`: where the bytes come from. -/
inductive DataSource
  | asset (name : String)
  | file (path : String)
  deriving DecidableEq

/-- An `ObjLoader` after construction: the parsed file. -/
structure ObjLoader where
  vertices : List Vec3
  normals : List Vec3
  texCoords : List Vec2
  indices : List Nat
  availableAttribs : List Attrib
  deriving DecidableEq

/-- The call `loader.getAvailableAttribs()`. -/
def ObjLoader.getAvailableAttribs (l : ObjLoader) : List Attrib := l.availableAttribs

/-- A `TriMesh`. -/
structure TriMesh where
  positions : List Vec3
  normals : List Vec3
  texCoords0 : List Vec2
  indices : List Nat
  deriving DecidableEq

/-- The call `mesh->getPositions<3>()`. -/
def TriMesh.getPositions (m : TriMesh) : List Vec3 := m.positions

/-- The call `mesh->getNumVertices()`. -/
def TriMesh.getNumVertices (m : TriMesh) : Nat := m.positions.length

/-- A compiled `gl::GlslProg`, identified by its handle. -/
structure GlslProg where
  handle : Nat
  deriving DecidableEq

/-- A `gl::TextureCubeMap`, identified by its handle. -/
structure TextureCubeMap where
  handle : Nat
  deriving DecidableEq

/-- The value of `gl::TextureCubeMap::Format()` after the setters used in `setup`. -/
structure CubeMapFormat where
  mipmap : Bool
  internalFormat : Nat
  minFilter : Nat
  magFilter : Nat
  deriving DecidableEq

/-- The GL constant `GL_RGB16F`. -/
def GL_RGB16F : Nat := 0x881B
/-- The GL constant `GL_LINEAR_MIPMAP_LINEAR`. -/
def GL_LINEAR_MIPMAP_LINEAR : Nat := 0x2703
/-- The GL constant `GL_LINEAR`. -/
def GL_LINEAR : Nat := 0x2601

/-- What a `gl::Batch` is created from. -/
inductive GeomSource
  | triMesh (m : TriMesh)
  | cube (size : Vec3)
  deriving DecidableEq

/-- A `gl::Batch`: uploaded geometry together with the program it draws with. -/
structure Batch where
  geom : GeomSource
  glslProg : GlslProg
  deriving DecidableEq

/-- The call `batch->getGlslProg()`. -/
def Batch.getGlslProg (b : Batch) : GlslProg := b.glslProg

/-- A `CameraPersp`. -/
structure CameraPersp where
  eyePoint : Vec3
  fov : Scalar
  aspectRatio : Scalar
  nearClip : Scalar
  farClip : Scalar
  pivotDistance : Scalar
  deriving DecidableEq

/-- The application window, as far as `setup` reads it. -/
structure Window where
  width : Int
  height : Int
  deriving DecidableEq

/-- A `CameraUi` (the camera it drives is always the member `camera_`, to which
it holds a pointer; the framework functions therefore take and return that
camera next to the `CameraUi`). -/
structure CameraUi where
  window : Window
  signalPriority : Int
  initialMousePos : Vec2
  initialPivotDistance : Scalar
  deriving DecidableEq

/-- An `Arcball` (it holds a pointer to `const CameraPersp`, always `camera_`;
the framework functions therefore take that camera as an argument). -/
structure Arcball where
  mSphere : Sphere
  mCurrentQuat : Quat
  mInitialQuat : Quat
  mInitialMousePos : Vec2
  mFromVector : Vec3
  mToVector : Vec3
  deriving DecidableEq

/-- The call `arcball.getQuat()`. -/
def Arcball.getQuat (a : Arcball) : Quat := a.mCurrentQuat

/-- The call `arcball.getSphere()`. -/
def Arcball.getSphere (a : Arcball) : Sphere := a.mSphere

/-- A `MouseEvent`: position and modifier keys. -/
structure MouseEvent where
  x : Int
  y : Int
  metaDown : Bool
  shiftDown : Bool
  altDown : Bool
  controlDown : Bool
  deriving DecidableEq

/-- The call `event.isMetaDown()`. -/
def MouseEvent.isMetaDown (e : MouseEvent) : Bool := e.metaDown

/-- A `KeyEvent`. -/
structure KeyEvent where
  char : Char
  deriving DecidableEq

/-- The call `event.getChar()`. -/
def KeyEvent.getChar (e : KeyEvent) : Char := e.char

/-! ## The framework interface -/

/-- The Cinder functions the application calls.  Fallible ones return `Except`. -/
structure Cinder where
  loadAsset : String → Except Exc DataSource
  loadFile : String → DataSource
  glslProgCreate : DataSource → DataSource → Except Exc GlslProg
  cameraPersp : Int → Int → Scalar → Scalar → Scalar → CameraPersp
  calcFraming : CameraPersp → Sphere → CameraPersp
  cameraUi : CameraPersp → Window → Int → CameraUi
  batchCreate : GeomSource → GlslProg → Except Exc Batch
  objLoader : DataSource → Except Exc ObjLoader
  triMeshCreate : ObjLoader → Except Exc TriMesh
  recalculateNormals : TriMesh → Except Exc TriMesh
  calculateBoundingSphere : List Vec3 → Nat → Except Exc Sphere
  createFromDds : DataSource → CubeMapFormat → Except Exc TextureCubeMap
  arcball : CameraPersp → Sphere → Arcball
  arcballSetSphere : Arcball → Sphere → Arcball
  arcballMouseDown : MouseEvent → CameraPersp → Arcball → Arcball
  arcballMouseDrag : MouseEvent → CameraPersp → Arcball → Arcball
  camUiMouseDown : MouseEvent → CameraUi → CameraPersp → CameraUi × CameraPersp
  camUiMouseDrag : MouseEvent → CameraUi → CameraPersp → CameraUi × CameraPersp
  colorHex : Nat → Color

/-- The value a `shader->uniform(name, value)` call passes. -/
inductive UniformValue
  | int (i : Int)
  | float (x : Scalar)
  | color (c : Color)
  deriving DecidableEq

/-- One framework call, as it appears in the call log. -/
inductive Call
  | consoleLog (msg : String)
  | loadAsset (name : String)
  | getOpenFilePath
  | glslProgCreate (vert : DataSource) (frag : DataSource)
  | batchCreate (g : GeomSource) (prog : GlslProg)
  | objLoader (ds : DataSource)
  | triMeshCreate (loader : ObjLoader)
  | recalculateNormals (mesh : TriMesh)
  | calculateBoundingSphere (points : List Vec3) (numPoints : Nat)
  | createFromDds (ds : DataSource) (fmt : CubeMapFormat)
  | calcFraming (s : Sphere)
  | arcballSetSphere (s : Sphere)
  | arcballMouseDown (e : MouseEvent)
  | arcballMouseDrag (e : MouseEvent)
  | camUiMouseDown (e : MouseEvent)
  | camUiMouseDrag (e : MouseEvent)
  | connectUpdateSignal
  | enableDepthWrite
  | enableDepthRead
  | clear (c : Color)
  | scopedDepthEnter (enable : Bool)
  | scopedDepthExit
  | textureBind (t : TextureCubeMap) (unit : Nat)
  | textureUnbind (t : TextureCubeMap) (unit : Nat)
  | uniform (prog : GlslProg) (name : String) (v : UniformValue)
  | setMatrices (c : CameraPersp)
  | pushMatrices
  | rotate (q : Quat)
  | popMatrices
  | batchDraw (b : Batch)
  deriving DecidableEq

/-! ## The application state -/

/-- The member variables of `class CinderellaApp`. -/
structure CinderellaApp where
  arcball_ : Arcball
  camUi_ : CameraUi
  camera_ : CameraPersp
  mesh_ : TriMesh
  bounding_sphere_ : Sphere
  batch_ : Batch
  skybox_batch_ : Batch
  pbrShader_ : GlslProg
  skyBoxShader_ : GlslProg
  irradianceMap_ : TextureCubeMap
  radianceMap_ : TextureCubeMap
  base_color_ : Color
  gamma_ : Scalar
  exposure_ : Scalar
  specular_ : Scalar
  roughness_ : Scalar
  metallic_ : Scalar
  deriving DecidableEq

/-- The member variables together with the log of framework calls made so far. -/
structure World where
  app : CinderellaApp
  calls : List Call
  deriving DecidableEq

/-- How a member function ends: it returns, or an exception leaves it.  Both
carry the world as it is at that moment. -/
inductive Res (α : Type)
  | ok (a : α) (w : World)
  | threw (e : Exc) (w : World)

/-- The world a result carries. -/
def Res.world {α : Type} : Res α → World
  | .ok _ w => w
  | .threw _ w => w

/-- Whether the function returned normally. -/
def Res.returned {α : Type} : Res α → Bool
  | .ok _ _ => true
  | .threw _ _ => false

/-- The exception that left the function, if any. -/
def Res.exc {α : Type} : Res α → Option Exc
  | .ok _ _ => none
  | .threw e _ => some e

/-- A member function body: reads and writes the world, may throw. -/
@[reducible] def M (α : Type) : Type := World → Res α

/-- Sequencing: an exception in the first part skips the rest. -/
def M.bind {α β : Type} (m : M α) (f : α → M β) : M β := fun w =>
  match m w with
  | .ok a w1 => f a w1
  | .threw e w1 => .threw e w1

instance : Monad M where
  pure a := fun w => .ok a w
  bind := M.bind

/-- Append a call to the log. -/
def emit (c : Call) : M Unit := fun w =>
  .ok () { w with calls := w.calls ++ [c] }

/-- A framework call: it is logged, then it returns its value or throws. -/
def call {α : Type} (c : Call) (r : Except Exc α) : M α := fun w =>
  match r with
  | .ok a => .ok a { w with calls := w.calls ++ [c] }
  | .error e => .threw e { w with calls := w.calls ++ [c] }

/-- Read the member variables. -/
def getApp : M CinderellaApp := fun w => .ok w.app w

/-- Assign to member variables. -/
def modifyApp (f : CinderellaApp → CinderellaApp) : M Unit := fun w =>
  .ok () { w with app := f w.app }

/-! ## The member functions -/

/-- `CinderellaApp::mouseDown`. -/
def mouseDown (L : Cinder) (event : MouseEvent) : M Unit := do
  let s ← getApp
  if event.isMetaDown then
    emit (.camUiMouseDown event)
    let r := L.camUiMouseDown event s.camUi_ s.camera_
    modifyApp fun s => { s with camUi_ := r.1, camera_ := r.2 }
  else
    emit (.arcballMouseDown event)
    modifyApp fun s => { s with arcball_ := L.arcballMouseDown event s.camera_ s.arcball_ }

/-- `CinderellaApp::mouseDrag`. -/
def mouseDrag (L : Cinder) (event : MouseEvent) : M Unit := do
  let s ← getApp
  if event.isMetaDown then
    emit (.camUiMouseDrag event)
    let r := L.camUiMouseDrag event s.camUi_ s.camera_
    modifyApp fun s => { s with camUi_ := r.1, camera_ := r.2 }
  else
    emit (.arcballMouseDrag event)
    modifyApp fun s => { s with arcball_ := L.arcballMouseDrag event s.camera_ s.arcball_ }

/-- `CinderellaApp::loadObj`. -/
def loadObj (L : Cinder) (dataSource : DataSource) : M Unit := do
  let loader ← call (.objLoader dataSource) (L.objLoader dataSource)
  let created ← call (.triMeshCreate loader) (L.triMeshCreate loader)
  modifyApp fun s => { s with mesh_ := created }
  if loader.getAvailableAttribs.count Attrib.NORMAL = 0 then
    let recalculated ← call (.recalculateNormals created) (L.recalculateNormals created)
    modifyApp fun s => { s with mesh_ := recalculated }
  let s ← getApp
  let batch ← call (.batchCreate (.triMesh s.mesh_) s.pbrShader_)
    (L.batchCreate (.triMesh s.mesh_) s.pbrShader_)
  modifyApp fun s => { s with batch_ := batch }
  let sphere ← call (.calculateBoundingSphere s.mesh_.getPositions s.mesh_.getNumVertices)
    (L.calculateBoundingSphere s.mesh_.getPositions s.mesh_.getNumVertices)
  modifyApp fun s => { s with bounding_sphere_ := sphere }
  emit (.arcballSetSphere sphere)
  modifyApp fun s => { s with arcball_ := L.arcballSetSphere s.arcball_ s.bounding_sphere_ }

/-- `CinderellaApp::frameCurrentObject`. -/
def frameCurrentObject (L : Cinder) : M Unit := do
  let s ← getApp
  emit (.calcFraming s.bounding_sphere_)
  modifyApp fun s => { s with camera_ := L.calcFraming s.camera_ s.bounding_sphere_ }

/-- `CinderellaApp::keyDown`.  The argument `path` is what `getOpenFilePath()`
returns if this key press opens the dialog. -/
def keyDown (L : Cinder) (event : KeyEvent) (path : String) : M Unit := do
  if event.getChar = 'l' then
    emit .getOpenFilePath
    if ¬ path.isEmpty then
      loadObj L (L.loadFile path)
  else if event.getChar = 'f' then
    frameCurrentObject L

/-- `CinderellaApp::setup`.  The argument `window` is the application window
(`getWindowWidth()`, `getWindowHeight()`, `getWindow()`). -/
def setup (L : Cinder) (window : Window) : M Unit := do
  -- setup shaders
  let pbrVert ← call (.loadAsset "pbr.vert") (L.loadAsset "pbr.vert")
  let pbrFrag ← call (.loadAsset "pbr.frag") (L.loadAsset "pbr.frag")
  let pbr ← call (.glslProgCreate pbrVert pbrFrag) (L.glslProgCreate pbrVert pbrFrag)
  modifyApp fun s => { s with pbrShader_ := pbr }
  let skyVert ← call (.loadAsset "skybox.vert") (L.loadAsset "skybox.vert")
  let skyFrag ← call (.loadAsset "skybox.frag") (L.loadAsset "skybox.frag")
  let sky ← call (.glslProgCreate skyVert skyFrag) (L.glslProgCreate skyVert skyFrag)
  modifyApp fun s => { s with skyBoxShader_ := sky }
  -- create camera and camera ui
  emit (.calcFraming ⟨Vec3.splat 0.0, 12.0⟩)
  let persp := L.cameraPersp window.width window.height 50.0 1.0 1000.0
  modifyApp fun s => { s with camera_ := L.calcFraming persp ⟨Vec3.splat 0.0, 12.0⟩ }
  modifyApp fun s => { s with camUi_ := L.cameraUi s.camera_ window (-1) }
  -- create skybox with shader
  let skybox ← call (.batchCreate (.cube (Vec3.splat 500)) sky)
    (L.batchCreate (.cube (Vec3.splat 500)) sky)
  modifyApp fun s => { s with skybox_batch_ := skybox }
  -- load model
  emit (.consoleLog "Loading object model from file")
  let dragon ← call (.loadAsset "dragon.obj") (L.loadAsset "dragon.obj")
  loadObj L dragon
  -- load cubemap
  let cubeMapFormat : CubeMapFormat := ⟨true, GL_RGB16F, GL_LINEAR_MIPMAP_LINEAR, GL_LINEAR⟩
  let irrSrc ← call (.loadAsset "irradiancemap.dds") (L.loadAsset "irradiancemap.dds")
  let irr ← call (.createFromDds irrSrc cubeMapFormat) (L.createFromDds irrSrc cubeMapFormat)
  modifyApp fun s => { s with irradianceMap_ := irr }
  let radSrc ← call (.loadAsset "radiancemap.dds") (L.loadAsset "radiancemap.dds")
  let rad ← call (.createFromDds radSrc cubeMapFormat) (L.createFromDds radSrc cubeMapFormat)
  modifyApp fun s => { s with radianceMap_ := rad }
  modifyApp fun s => { s with arcball_ := L.arcball s.camera_ s.bounding_sphere_ }
  -- set colors etc
  modifyApp fun s => { s with base_color_ := L.colorHex 0xFF0000 }
  modifyApp fun s => { s with specular_ := 1.0 }
  modifyApp fun s => { s with gamma_ := 2.2 }
  modifyApp fun s => { s with exposure_ := 5.5 }
  modifyApp fun s => { s with roughness_ := 0.4 }
  modifyApp fun s => { s with metallic_ := 0.1 }
  emit .connectUpdateSignal

/-- `CinderellaApp::draw`.  The temporary `gl::ScopedDepth(true)` is destroyed at
the end of its statement; the two `ScopedTextureBind` locals are destroyed, in
reverse order of declaration, when the function returns. -/
def draw : M Unit := do
  let s ← getApp
  emit .enableDepthWrite
  emit .enableDepthRead
  emit (.clear ⟨0, 0, 0⟩)
  emit (.scopedDepthEnter true)
  emit .scopedDepthExit
  -- bind cubemaps
  emit (.textureBind s.radianceMap_ 0)
  emit (.textureBind s.irradianceMap_ 1)
  let shader := s.batch_.getGlslProg
  emit (.uniform shader "radianceMap" (.int 0))
  emit (.uniform shader "irradianceMap" (.int 1))
  emit (.uniform shader "baseColor" (.color s.base_color_))
  emit (.uniform shader "specular" (.float s.specular_))
  emit (.uniform shader "exposure" (.float s.exposure_))
  emit (.uniform shader "gamma" (.float s.gamma_))
  emit (.uniform shader "roughness" (.float s.roughness_))
  emit (.uniform shader "metallic" (.float s.metallic_))
  emit (.setMatrices s.camera_)
  emit .pushMatrices
  emit (.rotate s.arcball_.getQuat)
  emit (.batchDraw s.batch_)
  -- skybox
  let shader := s.skybox_batch_.getGlslProg
  emit (.uniform shader "exposure" (.float s.exposure_))
  emit (.uniform shader "gamma" (.float s.gamma_))
  emit (.batchDraw s.skybox_batch_)
  emit .popMatrices
  emit (.textureUnbind s.irradianceMap_ 1)
  emit (.textureUnbind s.radianceMap_ 0)

/-! ## The session: events delivered by the host -/

/-- The events the host delivers after `setup`.  A key event carries what
`getOpenFilePath()` returns if the handler opens the dialog. -/
inductive Event
  | mouseDown (event : MouseEvent)
  | mouseDrag (event : MouseEvent)
  | keyDown (event : KeyEvent) (path : String)
  | draw
  deriving DecidableEq

/-- The handler the host runs for an event. -/
def handle (L : Cinder) : Event → M Unit
  | .mouseDown event => mouseDown L event
  | .mouseDrag event => mouseDrag L event
  | .keyDown event path => keyDown L event path
  | .draw => draw

/-- The member-variable states of a running session: the state `setup` returns
with, and the state any handler returns with from such a state.  No handler
catches exceptions, so an exception that leaves `setup` or a handler leaves the
application: such a run has no later state. -/
inductive Reachable (L : Cinder) (window : Window) : CinderellaApp → Prop
  | setup (w0 w : World) : setup L window w0 = .ok () w → Reachable L window w.app
  | handle (ev : Event) (s : CinderellaApp) (log : List Call) (w : World) :
      Reachable L window s → handle L ev ⟨s, log⟩ = .ok () w → Reachable L window w.app

/-! ## The GL matrix stack

The commands `gl::setMatrices`, `gl::pushMatrices`, `gl::rotate` and
`gl::popMatrices` act on the matrix stack of the GL context.  A matrix is kept as
the expression that produced it. -/

/-- The model-view-projection matrices at one level of the stack. -/
inductive Mat
  | initial (k : Nat)
  | ofCamera (c : CameraPersp)
  | rotated (m : Mat) (q : Quat)
  deriving DecidableEq

/-- The matrix stack: the current matrices and the saved ones below. -/
structure MatrixStack where
  top : Mat
  below : List Mat
  deriving DecidableEq

/-- The number of levels of the stack. -/
def MatrixStack.depth (st : MatrixStack) : Nat := st.below.length + 1

/-- The effect of one call on the matrix stack: `setMatrices` replaces the current
matrices, `pushMatrices` saves a copy of them, `rotate` multiplies the current
model matrix, `popMatrices` restores the last saved copy; no other call touches
the stack. -/
def glMatrices : Call → MatrixStack → MatrixStack
  | .setMatrices c, st => { st with top := .ofCamera c }
  | .pushMatrices, st => ⟨st.top, st.top :: st.below⟩
  | .rotate q, st => { st with top := .rotated st.top q }
  | .popMatrices, st =>
    match st.below with
    | [] => st
    | m :: ms => ⟨m, ms⟩
  | _, st => st

/-- The matrix stack after a sequence of calls. -/
def runMatrices : List Call → MatrixStack → MatrixStack
  | [], st => st
  | c :: cs, st => runMatrices cs (glMatrices c st)

/-- The batches a sequence of calls draws, each with the matrices current at its draw. -/
def drawnUnder : List Call → MatrixStack → List (Batch × Mat)
  | [], _ => []
  | .batchDraw b :: cs, st => (b, st.top) :: drawnUnder cs st
  | c :: cs, st => drawnUnder cs (glMatrices c st)

/-! ## Two concrete frameworks

Used to evaluate the member functions on concrete inputs.  `cinderLib` computes a
(zero) sphere for an empty point set; `strictLib` differs only in following the
contract of spec §4.2, under which the bounding sphere of an empty point set is
an `EmptyGeometry` failure. -/

/-- The assets shipped next to the executable. -/
def assetNames : List String :=
  ["pbr.vert", "pbr.frag", "skybox.vert", "skybox.frag", "dragon.obj",
   "irradiancemap.dds", "radiancemap.dds"]

/-- The contents of the mesh files of the examples, as parsed:
the asset `dragon.obj` (a triangle without normals), `quad.obj` (a square with
normals), `empty.obj` (no vertex line at all); `broken.obj` has a syntax error. -/
def parseObj : DataSource → Except Exc ObjLoader
  | .asset "dragon.obj" =>
    .ok ⟨[⟨0, 0, 0⟩, ⟨2, 0, 0⟩, ⟨0, 2, 0⟩], [], [], [0, 1, 2], [.POSITION]⟩
  | .file "quad.obj" =>
    .ok ⟨[⟨1, 1, 0⟩, ⟨5, 1, 0⟩, ⟨5, 5, 0⟩, ⟨1, 5, 0⟩],
         [⟨0, 0, -1⟩, ⟨0, 0, -1⟩, ⟨0, 0, -1⟩, ⟨0, 0, -1⟩], [], [0, 1, 2, 0, 2, 3],
         [.POSITION, .NORMAL]⟩
  | .file "empty.obj" => .ok ⟨[], [], [], [], []⟩
  | .file "broken.obj" => .error .MalformedGeometry
  | _ => .error .AssetUnreadable

/-- A sphere around the first point that contains every point (the radius is the
largest sum of coordinate distances); the zero sphere for no points. -/
def enclosingSphere : List Vec3 → Sphere
  | [] => ⟨Vec3.splat 0, 0⟩
  | p :: ps =>
    ⟨p, ps.foldl (fun r q => max r (|q.x - p.x| + |q.y - p.y| + |q.z - p.z|)) 0⟩

/-- A framework instance for the examples. -/
def cinderLib : Cinder where
  loadAsset name := if name ∈ assetNames then .ok (.asset name) else .error .AssetUnreadable
  loadFile path := .file path
  glslProgCreate vert _ := .ok ⟨if vert = .asset "pbr.vert" then 1 else 2⟩
  cameraPersp w h fov near far := ⟨⟨0, 0, 0⟩, fov, (w : ℚ) / (h : ℚ), near, far, 0⟩
  calcFraming c s :=
    { c with eyePoint := ⟨s.center.x, s.center.y, s.center.z + 3 * s.radius⟩,
             pivotDistance := 3 * s.radius }
  cameraUi c window priority := ⟨window, priority, ⟨0, 0⟩, c.pivotDistance⟩
  batchCreate g prog := .ok ⟨g, prog⟩
  objLoader := parseObj
  triMeshCreate loader := .ok ⟨loader.vertices, loader.normals, loader.texCoords, loader.indices⟩
  recalculateNormals m := .ok { m with normals := m.positions.map fun _ => ⟨0, 0, 1⟩ }
  calculateBoundingSphere points n := .ok (enclosingSphere (points.take n))
  createFromDds ds _ := .ok ⟨if ds = .asset "irradiancemap.dds" then 1 else 2⟩
  arcball _ s := ⟨s, ⟨1, 0, 0, 0⟩, ⟨1, 0, 0, 0⟩, ⟨0, 0⟩, ⟨0, 0, 0⟩, ⟨0, 0, 1⟩⟩
  arcballSetSphere a s := { a with mSphere := s }
  arcballMouseDown e _ a :=
    { a with mInitialMousePos := ⟨e.x, e.y⟩, mInitialQuat := a.mCurrentQuat }
  arcballMouseDrag e _ a :=
    if a.mInitialMousePos = ⟨e.x, e.y⟩ then { a with mCurrentQuat := a.mInitialQuat }
    else { a with mCurrentQuat :=
      ⟨-a.mInitialQuat.x, a.mInitialQuat.w, -a.mInitialQuat.z, a.mInitialQuat.y⟩ }
  camUiMouseDown e u c :=
    ({ u with initialMousePos := ⟨e.x, e.y⟩, initialPivotDistance := c.pivotDistance }, c)
  camUiMouseDrag e u c :=
    (u, { c with eyePoint := ⟨c.eyePoint.x + (e.x - u.initialMousePos.x),
                              c.eyePoint.y + (e.y - u.initialMousePos.y), c.eyePoint.z⟩ })
  colorHex v := ⟨((v / 65536 % 256 : ℕ) : ℚ) / 255, ((v / 256 % 256 : ℕ) : ℚ) / 255,
                 ((v % 256 : ℕ) : ℚ) / 255⟩

/-- The same framework, except that the bounding sphere of no points is a failure. -/
def strictLib : Cinder :=
  { cinderLib with
    calculateBoundingSphere := fun points n =>
      if n = 0 then .error .EmptyGeometry else cinderLib.calculateBoundingSphere points n }

/-- Member variables before `setup` has assigned them. -/
def unset : CinderellaApp where
  arcball_ := ⟨⟨⟨0, 0, 0⟩, 0⟩, ⟨1, 0, 0, 0⟩, ⟨1, 0, 0, 0⟩, ⟨0, 0⟩, ⟨0, 0, 0⟩, ⟨0, 0, 0⟩⟩
  camUi_ := ⟨⟨0, 0⟩, 0, ⟨0, 0⟩, 0⟩
  camera_ := ⟨⟨0, 0, 0⟩, 0, 0, 0, 0, 0⟩
  mesh_ := ⟨[], [], [], []⟩
  bounding_sphere_ := ⟨⟨0, 0, 0⟩, 0⟩
  batch_ := ⟨.triMesh ⟨[], [], [], []⟩, ⟨0⟩⟩
  skybox_batch_ := ⟨.triMesh ⟨[], [], [], []⟩, ⟨0⟩⟩
  pbrShader_ := ⟨0⟩
  skyBoxShader_ := ⟨0⟩
  irradianceMap_ := ⟨0⟩
  radianceMap_ := ⟨0⟩
  base_color_ := ⟨0, 0, 0⟩
  gamma_ := 0
  exposure_ := 0
  specular_ := 0
  roughness_ := 0
  metallic_ := 0

/-- The window of the examples. -/
def window0 : Window := ⟨640, 480⟩

/-- The session of the examples right after `setup`. -/
def started : World := (setup cinderLib window0 ⟨unset, []⟩).world

/-! ## Definitions used in the statements -/

/-- The calls `loadObj` makes up to the point where the mesh is final. -/
def meshCalls (ds : DataSource) (loader : ObjLoader) (created : TriMesh) : List Call :=
  if loader.getAvailableAttribs.count Attrib.NORMAL = 0 then
    [.objLoader ds, .triMeshCreate loader, .recalculateNormals created]
  else [.objLoader ds, .triMeshCreate loader]

/-- The mesh is final: `mesh` is what recalculation returned, or the mesh as
built when the loader has normals. -/
def MeshReady (L : Cinder) (loader : ObjLoader) (created mesh : TriMesh) : Prop :=
  if loader.getAvailableAttribs.count Attrib.NORMAL = 0 then
    L.recalculateNormals created = .ok mesh
  else mesh = created

/-- The session of the examples right after `setup`, under `strictLib`. -/
def startedStrict : World := (setup strictLib window0 ⟨unset, []⟩).world

/-- The world in which the reload of `empty.obj` fails under `strictLib`. -/
def failedReload : World :=
  (loadObj strictLib (strictLib.loadFile "empty.obj")
    ⟨startedStrict.app, startedStrict.calls ++ [.getOpenFilePath]⟩).world

/-- A call that hands the mesh `m` to a consumer: creating a batch from it, or
computing the bounding sphere of its positions. -/
def Call.consumes (m : TriMesh) : Call → Prop
  | .batchCreate g _ => g = .triMesh m
  | .calculateBoundingSphere points n => points = m.getPositions ∧ n = m.getNumVertices
  | _ => False

/-- Whether a call hands a mesh to a consumer. -/
def Call.isConsumer : Call → Bool
  | .batchCreate _ _ => true
  | .calculateBoundingSphere _ _ => true
  | _ => false

/-- Whether a call is a recalculation of normals. -/
def Call.isRecalculate : Call → Bool
  | .recalculateNormals _ => true
  | _ => false

/-- The GL commands of one `draw`, in order. -/
def drawCalls (s : CinderellaApp) : List Call :=
  [.enableDepthWrite, .enableDepthRead, .clear ⟨0, 0, 0⟩,
   .scopedDepthEnter true, .scopedDepthExit,
   .textureBind s.radianceMap_ 0, .textureBind s.irradianceMap_ 1,
   .uniform s.batch_.getGlslProg "radianceMap" (.int 0),
   .uniform s.batch_.getGlslProg "irradianceMap" (.int 1),
   .uniform s.batch_.getGlslProg "baseColor" (.color s.base_color_),
   .uniform s.batch_.getGlslProg "specular" (.float s.specular_),
   .uniform s.batch_.getGlslProg "exposure" (.float s.exposure_),
   .uniform s.batch_.getGlslProg "gamma" (.float s.gamma_),
   .uniform s.batch_.getGlslProg "roughness" (.float s.roughness_),
   .uniform s.batch_.getGlslProg "metallic" (.float s.metallic_),
   .setMatrices s.camera_, .pushMatrices, .rotate s.arcball_.getQuat,
   .batchDraw s.batch_,
   .uniform s.skybox_batch_.getGlslProg "exposure" (.float s.exposure_),
   .uniform s.skybox_batch_.getGlslProg "gamma" (.float s.gamma_),
   .batchDraw s.skybox_batch_,
   .popMatrices,
   .textureUnbind s.irradianceMap_ 1, .textureUnbind s.radianceMap_ 0]

/-- The part of the framework's arcball contract the invariant rests on: the
constructor and `setSphere` store the sphere they are given, and pointer events
do not change the sphere. -/
structure ArcballKeepsSphere (L : Cinder) : Prop where
  ctor : ∀ c s, (L.arcball c s).getSphere = s
  setSphere : ∀ a s, (L.arcballSetSphere a s).getSphere = s
  mouseDown : ∀ e c a, (L.arcballMouseDown e c a).getSphere = a.getSphere
  mouseDrag : ∀ e c a, (L.arcballMouseDrag e c a).getSphere = a.getSphere

/-- The example session after the key l with the file `quad.obj`. -/
def reloaded : World := (keyDown cinderLib ⟨'l'⟩ "quad.obj" started).world

/-- Whether a call sets a uniform. -/
def Call.isUniform : Call → Bool
  | .uniform _ _ _ => true
  | _ => false

/-- Whether a call sets a uniform of the program `p`. -/
def Call.isUniformOf (p : GlslProg) : Call → Bool
  | .uniform q _ _ => decide (q = p)
  | _ => false

/-! ## Running the monad -/

theorem bind_run {α β : Type} (m : M α) (f : α → M β) (w : World) :
    (m >>= f) w = match m w with
      | .ok a w1 => f a w1
      | .threw e w1 => .threw e w1 := rfl

theorem pure_run {α : Type} (a : α) (w : World) : (pure a : M α) w = .ok a w := rfl

theorem emit_run (c : Call) (w : World) : emit c w = .ok () ⟨w.app, w.calls ++ [c]⟩ := rfl

theorem getApp_run (w : World) : getApp w = .ok w.app w := rfl

theorem modifyApp_run (f : CinderellaApp → CinderellaApp) (w : World) :
    modifyApp f w = .ok () ⟨f w.app, w.calls⟩ := rfl

theorem call_ok {α : Type} (c : Call) (a : α) (w : World) :
    call c (.ok a) w = .ok a ⟨w.app, w.calls ++ [c]⟩ := rfl

theorem call_error {α : Type} (c : Call) (e : Exc) (w : World) :
    (call c (.error e) : M α) w = .threw e ⟨w.app, w.calls ++ [c]⟩ := rfl

/-- A result that returned is `ok` of its world. -/
theorem Res.eq_ok_of_returned (r : Res Unit) (h : r.returned = true) : r = .ok () r.world := by
  cases r with
  | ok a w => rfl
  | threw e w => simp [Res.returned] at h

/-! ## `loadObj`, step by step -/

theorem loadObj_parse_error (L : Cinder) (ds : DataSource) (w : World) (e : Exc)
    (h : L.objLoader ds = .error e) :
    loadObj L ds w = .threw e ⟨w.app, w.calls ++ [.objLoader ds]⟩ := by
  simp [loadObj, bind_run, h, call_error]

theorem loadObj_create_error (L : Cinder) (ds : DataSource) (w : World) (e : Exc)
    (loader : ObjLoader) (h : L.objLoader ds = .ok loader)
    (h2 : L.triMeshCreate loader = .error e) :
    loadObj L ds w = .threw e ⟨w.app, w.calls ++ [.objLoader ds, .triMeshCreate loader]⟩ := by
  simp [loadObj, bind_run, h, h2, call_error, call_ok]

theorem loadObj_recalc_error (L : Cinder) (ds : DataSource) (w : World) (e : Exc)
    (loader : ObjLoader) (created : TriMesh) (h : L.objLoader ds = .ok loader)
    (h2 : L.triMeshCreate loader = .ok created)
    (h3 : loader.getAvailableAttribs.count Attrib.NORMAL = 0)
    (h4 : L.recalculateNormals created = .error e) :
    loadObj L ds w = .threw e ⟨{ w.app with mesh_ := created },
      w.calls ++ [.objLoader ds, .triMeshCreate loader, .recalculateNormals created]⟩ := by
  simp [loadObj, bind_run, h, h2, h3, h4, call_error, call_ok, modifyApp_run]

theorem loadObj_batch_error (L : Cinder) (ds : DataSource) (w : World) (e : Exc)
    (loader : ObjLoader) (created mesh : TriMesh) (h : L.objLoader ds = .ok loader)
    (h2 : L.triMeshCreate loader = .ok created) (h3 : MeshReady L loader created mesh)
    (h4 : L.batchCreate (.triMesh mesh) w.app.pbrShader_ = .error e) :
    loadObj L ds w = .threw e ⟨{ w.app with mesh_ := mesh },
      w.calls ++ meshCalls ds loader created ++
        [.batchCreate (.triMesh mesh) w.app.pbrShader_]⟩ := by
  unfold MeshReady at h3
  by_cases hn : loader.getAvailableAttribs.count Attrib.NORMAL = 0
  · rw [if_pos hn] at h3
    simp [loadObj, bind_run, h, h2, hn, h3, h4, call_error, call_ok, modifyApp_run,
      getApp_run, meshCalls]
  · rw [if_neg hn] at h3
    subst h3
    simp [loadObj, bind_run, h, h2, hn, h4, call_error, call_ok, modifyApp_run,
      getApp_run, pure_run, meshCalls]

theorem loadObj_sphere_error (L : Cinder) (ds : DataSource) (w : World) (e : Exc)
    (loader : ObjLoader) (created mesh : TriMesh) (batch : Batch)
    (h : L.objLoader ds = .ok loader)
    (h2 : L.triMeshCreate loader = .ok created) (h3 : MeshReady L loader created mesh)
    (h4 : L.batchCreate (.triMesh mesh) w.app.pbrShader_ = .ok batch)
    (h5 : L.calculateBoundingSphere mesh.getPositions mesh.getNumVertices = .error e) :
    loadObj L ds w = .threw e ⟨{ w.app with mesh_ := mesh, batch_ := batch },
      w.calls ++ meshCalls ds loader created ++
        [.batchCreate (.triMesh mesh) w.app.pbrShader_,
         .calculateBoundingSphere mesh.getPositions mesh.getNumVertices]⟩ := by
  unfold MeshReady at h3
  by_cases hn : loader.getAvailableAttribs.count Attrib.NORMAL = 0
  · rw [if_pos hn] at h3
    simp [loadObj, bind_run, h, h2, hn, h3, h4, h5, call_error, call_ok, modifyApp_run,
      getApp_run, meshCalls]
  · rw [if_neg hn] at h3
    subst h3
    simp [loadObj, bind_run, h, h2, hn, h4, h5, call_error, call_ok, modifyApp_run,
      getApp_run, pure_run, meshCalls]

theorem loadObj_success (L : Cinder) (ds : DataSource) (w : World)
    (loader : ObjLoader) (created mesh : TriMesh) (batch : Batch) (sphere : Sphere)
    (h : L.objLoader ds = .ok loader)
    (h2 : L.triMeshCreate loader = .ok created) (h3 : MeshReady L loader created mesh)
    (h4 : L.batchCreate (.triMesh mesh) w.app.pbrShader_ = .ok batch)
    (h5 : L.calculateBoundingSphere mesh.getPositions mesh.getNumVertices = .ok sphere) :
    loadObj L ds w = .ok ()
      ⟨{ w.app with
          mesh_ := mesh
          batch_ := batch
          bounding_sphere_ := sphere
          arcball_ := L.arcballSetSphere w.app.arcball_ sphere },
      w.calls ++ meshCalls ds loader created ++
        [.batchCreate (.triMesh mesh) w.app.pbrShader_,
         .calculateBoundingSphere mesh.getPositions mesh.getNumVertices,
         .arcballSetSphere sphere]⟩ := by
  unfold MeshReady at h3
  by_cases hn : loader.getAvailableAttribs.count Attrib.NORMAL = 0
  · rw [if_pos hn] at h3
    simp [loadObj, bind_run, h, h2, hn, h3, h4, h5, call_ok, modifyApp_run,
      getApp_run, meshCalls, emit_run]
  · rw [if_neg hn] at h3
    subst h3
    simp [loadObj, bind_run, h, h2, hn, h4, h5, call_ok, modifyApp_run,
      getApp_run, pure_run, meshCalls, emit_run]

/-- Every run of `loadObj` is one of six: a throw from one of the five fallible
framework calls, or a normal return. -/
theorem loadObj_cases (L : Cinder) (ds : DataSource) (w : World) :
    (∃ e, L.objLoader ds = .error e ∧
      loadObj L ds w = .threw e ⟨w.app, w.calls ++ [.objLoader ds]⟩) ∨
    (∃ loader e, L.objLoader ds = .ok loader ∧ L.triMeshCreate loader = .error e ∧
      loadObj L ds w = .threw e ⟨w.app, w.calls ++ [.objLoader ds, .triMeshCreate loader]⟩) ∨
    (∃ loader created e, L.objLoader ds = .ok loader ∧ L.triMeshCreate loader = .ok created ∧
      loader.getAvailableAttribs.count Attrib.NORMAL = 0 ∧
      L.recalculateNormals created = .error e ∧
      loadObj L ds w = .threw e ⟨{ w.app with mesh_ := created },
        w.calls ++ [.objLoader ds, .triMeshCreate loader, .recalculateNormals created]⟩) ∨
    (∃ loader created mesh e, L.objLoader ds = .ok loader ∧
      L.triMeshCreate loader = .ok created ∧ MeshReady L loader created mesh ∧
      L.batchCreate (.triMesh mesh) w.app.pbrShader_ = .error e ∧
      loadObj L ds w = .threw e ⟨{ w.app with mesh_ := mesh },
        w.calls ++ meshCalls ds loader created ++
          [.batchCreate (.triMesh mesh) w.app.pbrShader_]⟩) ∨
    (∃ loader created mesh batch e, L.objLoader ds = .ok loader ∧
      L.triMeshCreate loader = .ok created ∧ MeshReady L loader created mesh ∧
      L.batchCreate (.triMesh mesh) w.app.pbrShader_ = .ok batch ∧
      L.calculateBoundingSphere mesh.getPositions mesh.getNumVertices = .error e ∧
      loadObj L ds w = .threw e ⟨{ w.app with mesh_ := mesh, batch_ := batch },
        w.calls ++ meshCalls ds loader created ++
          [.batchCreate (.triMesh mesh) w.app.pbrShader_,
           .calculateBoundingSphere mesh.getPositions mesh.getNumVertices]⟩) ∨
    (∃ loader created mesh batch sphere, L.objLoader ds = .ok loader ∧
      L.triMeshCreate loader = .ok created ∧ MeshReady L loader created mesh ∧
      L.batchCreate (.triMesh mesh) w.app.pbrShader_ = .ok batch ∧
      L.calculateBoundingSphere mesh.getPositions mesh.getNumVertices = .ok sphere ∧
      loadObj L ds w = .ok ()
        ⟨{ w.app with
            mesh_ := mesh
            batch_ := batch
            bounding_sphere_ := sphere
            arcball_ := L.arcballSetSphere w.app.arcball_ sphere },
        w.calls ++ meshCalls ds loader created ++
          [.batchCreate (.triMesh mesh) w.app.pbrShader_,
           .calculateBoundingSphere mesh.getPositions mesh.getNumVertices,
           .arcballSetSphere sphere]⟩) := by
  cases h1 : L.objLoader ds with
  | error e => exact Or.inl ⟨e, rfl, loadObj_parse_error L ds w e h1⟩
  | ok loader =>
    cases h2 : L.triMeshCreate loader with
    | error e => exact Or.inr (Or.inl ⟨loader, e, rfl, h2, loadObj_create_error L ds w e loader h1 h2⟩)
    | ok created =>
      have hready : (∃ e, loader.getAvailableAttribs.count Attrib.NORMAL = 0 ∧
            L.recalculateNormals created = .error e) ∨
          ∃ mesh, MeshReady L loader created mesh := by
        by_cases hn : loader.getAvailableAttribs.count Attrib.NORMAL = 0
        · cases h3 : L.recalculateNormals created with
          | error e => exact Or.inl ⟨e, hn, rfl⟩
          | ok mesh => exact Or.inr ⟨mesh, by simp [MeshReady, hn, h3]⟩
        · exact Or.inr ⟨created, by simp [MeshReady, hn]⟩
      rcases hready with ⟨e, hn, h3⟩ | ⟨mesh, h3⟩
      · exact Or.inr (Or.inr (Or.inl ⟨loader, created, e, rfl, h2, hn, h3,
          loadObj_recalc_error L ds w e loader created h1 h2 hn h3⟩))
      · cases h4 : L.batchCreate (.triMesh mesh) w.app.pbrShader_ with
        | error e =>
          exact Or.inr (Or.inr (Or.inr (Or.inl ⟨loader, created, mesh, e, rfl, h2, h3, h4,
            loadObj_batch_error L ds w e loader created mesh h1 h2 h3 h4⟩)))
        | ok batch =>
          cases h5 : L.calculateBoundingSphere mesh.getPositions mesh.getNumVertices with
          | error e =>
            exact Or.inr (Or.inr (Or.inr (Or.inr (Or.inl ⟨loader, created, mesh, batch, e,
              rfl, h2, h3, h4, h5,
              loadObj_sphere_error L ds w e loader created mesh batch h1 h2 h3 h4 h5⟩))))
          | ok sphere =>
            exact Or.inr (Or.inr (Or.inr (Or.inr (Or.inr ⟨loader, created, mesh, batch, sphere,
              rfl, h2, h3, h4, h5,
              loadObj_success L ds w loader created mesh batch sphere h1 h2 h3 h4 h5⟩))))

/-! ## `keyDown`, branch by branch -/

theorem keyDown_reload (L : Cinder) (event : KeyEvent) (path : String) (w : World)
    (hkey : event.getChar = 'l') (hpath : path.isEmpty = false) :
    keyDown L event path w =
      loadObj L (L.loadFile path) ⟨w.app, w.calls ++ [.getOpenFilePath]⟩ := by
  simp [keyDown, bind_run, emit_run, hkey, hpath]

theorem keyDown_cancelled (L : Cinder) (event : KeyEvent) (path : String) (w : World)
    (hkey : event.getChar = 'l') (hpath : path.isEmpty = true) :
    keyDown L event path w = .ok () ⟨w.app, w.calls ++ [.getOpenFilePath]⟩ := by
  simp [keyDown, bind_run, emit_run, hkey, hpath, pure_run]

theorem keyDown_frame (L : Cinder) (event : KeyEvent) (path : String) (w : World)
    (hkey : event.getChar = 'f') :
    keyDown L event path w =
      .ok () ⟨{ w.app with camera_ := L.calcFraming w.app.camera_ w.app.bounding_sphere_ },
        w.calls ++ [.calcFraming w.app.bounding_sphere_]⟩ := by
  simp [keyDown, frameCurrentObject, bind_run, emit_run, getApp_run, modifyApp_run, hkey]

theorem keyDown_other (L : Cinder) (event : KeyEvent) (path : String) (w : World)
    (hl : event.getChar ≠ 'l') (hf : event.getChar ≠ 'f') :
    keyDown L event path w = .ok () w := by
  simp [keyDown, hl, hf, pure_run]

/-! ## C1: a reload that fails -/

/-- C1, as the code has it: when the reload started by the key l fails in
`loadObj`, the exception is not caught, it leaves `keyDown`; at that moment
`bounding_sphere_` and `arcball_` (sphere and orientation) still have their values
from before the key press; `mesh_` still has its old value when the failure is in
parsing the file or building the mesh, and is already the newly built mesh when a
later step (normals, batch, bounding sphere) fails. -/
theorem reload_failure_leaves_keyDown (L : Cinder) (event : KeyEvent) (path : String)
    (w w1 : World) (e : Exc)
    (hkey : event.getChar = 'l') (hpath : path.isEmpty = false)
    (hfail : loadObj L (L.loadFile path) ⟨w.app, w.calls ++ [.getOpenFilePath]⟩ = .threw e w1) :
    keyDown L event path w = .threw e w1 ∧
    w1.app.bounding_sphere_ = w.app.bounding_sphere_ ∧
    w1.app.arcball_ = w.app.arcball_ ∧
    ((∀ loader created, L.objLoader (L.loadFile path) = .ok loader →
        L.triMeshCreate loader ≠ .ok created) → w1.app.mesh_ = w.app.mesh_) ∧
    (∀ loader created, L.objLoader (L.loadFile path) = .ok loader →
        L.triMeshCreate loader = .ok created →
        w1.app.mesh_ = created ∨ L.recalculateNormals created = .ok w1.app.mesh_) := by
  refine ⟨by rw [keyDown_reload L event path w hkey hpath, hfail], ?_⟩
  rcases loadObj_cases L (L.loadFile path) ⟨w.app, w.calls ++ [.getOpenFilePath]⟩ with
    ⟨e1, h1, hr⟩ | ⟨loader, e1, h1, h2, hr⟩ | ⟨loader, created, e1, h1, h2, hn, h3, hr⟩ |
    ⟨loader, created, mesh, e1, h1, h2, h3, h4, hr⟩ |
    ⟨loader, created, mesh, batch, e1, h1, h2, h3, h4, h5, hr⟩ |
    ⟨loader, created, mesh, batch, sphere, h1, h2, h3, h4, h5, hr⟩
  · rw [hr] at hfail
    injection hfail with _ hw
    subst hw
    refine ⟨rfl, rfl, fun _ => rfl, ?_⟩
    intro loader created hl
    rw [h1] at hl
    cases hl
  · rw [hr] at hfail
    injection hfail with _ hw
    subst hw
    refine ⟨rfl, rfl, fun _ => rfl, ?_⟩
    intro loader1 created hl hc
    rw [h1] at hl
    injection hl with hl
    subst hl
    rw [h2] at hc
    cases hc
  · rw [hr] at hfail
    injection hfail with _ hw
    subst hw
    refine ⟨rfl, rfl, fun hno => absurd h2 (hno loader created h1), ?_⟩
    intro loader1 created1 hl hc
    rw [h1] at hl
    injection hl with hl
    subst hl
    rw [h2] at hc
    injection hc with hc
    subst hc
    exact Or.inl rfl
  · rw [hr] at hfail
    injection hfail with _ hw
    subst hw
    refine ⟨rfl, rfl, fun hno => absurd h2 (hno loader created h1), ?_⟩
    intro loader1 created1 hl hc
    rw [h1] at hl
    injection hl with hl
    subst hl
    rw [h2] at hc
    injection hc with hc
    subst hc
    unfold MeshReady at h3
    split at h3
    · exact Or.inr h3
    · exact Or.inl h3
  · rw [hr] at hfail
    injection hfail with _ hw
    subst hw
    refine ⟨rfl, rfl, fun hno => absurd h2 (hno loader created h1), ?_⟩
    intro loader1 created1 hl hc
    rw [h1] at hl
    injection hl with hl
    subst hl
    rw [h2] at hc
    injection hc with hc
    subst hc
    unfold MeshReady at h3
    split at h3
    · exact Or.inr h3
    · exact Or.inl h3
  · rw [hr] at hfail
    cases hfail

/-- A result that threw is `threw` of its exception and world. -/
theorem Res.eq_threw_of_exc (r : Res Unit) (e : Exc) (h : r.exc = some e) :
    r = .threw e r.world := by
  cases r with
  | ok a w => simp [Res.exc] at h
  | threw e1 w =>
    simp only [Res.exc, Option.some.injEq] at h
    subst h
    rfl

/-- C1 refuted as stated: under `strictLib`, after a successful `setup`, the key l
with the file `broken.obj` (a parse failure) and with the file `empty.obj` (a
bounding-sphere failure) both end `keyDown` with the exception; in the second
case `mesh_` is no longer the mesh from before the key press. -/
theorem reload_failure_escapes :
    (setup strictLib window0 ⟨unset, []⟩).returned = true ∧
    (keyDown strictLib ⟨'l'⟩ "broken.obj" startedStrict).exc = some .MalformedGeometry ∧
    (keyDown strictLib ⟨'l'⟩ "empty.obj" startedStrict).exc = some .EmptyGeometry ∧
    (keyDown strictLib ⟨'l'⟩ "empty.obj" startedStrict).world.app.mesh_ ≠
      startedStrict.app.mesh_ := by
  decide

/-- C1 at the example session: the reload of `empty.obj` under `strictLib`. -/
theorem reload_failure_leaves_keyDown_witness :
    (KeyEvent.mk 'l').getChar = 'l' ∧ String.isEmpty "empty.obj" = false ∧
    loadObj strictLib (strictLib.loadFile "empty.obj")
      ⟨startedStrict.app, startedStrict.calls ++ [.getOpenFilePath]⟩ =
        .threw .EmptyGeometry failedReload ∧
    keyDown strictLib ⟨'l'⟩ "empty.obj" startedStrict = .threw .EmptyGeometry failedReload ∧
    failedReload.app.bounding_sphere_ = startedStrict.app.bounding_sphere_ ∧
    failedReload.app.arcball_ = startedStrict.app.arcball_ :=
  have hfail : loadObj strictLib (strictLib.loadFile "empty.obj")
      ⟨startedStrict.app, startedStrict.calls ++ [.getOpenFilePath]⟩ =
        .threw .EmptyGeometry failedReload :=
    Res.eq_threw_of_exc _ _ (by decide)
  have h := reload_failure_leaves_keyDown strictLib ⟨'l'⟩ "empty.obj" startedStrict
    failedReload .EmptyGeometry (by decide) (by decide) hfail
  ⟨by decide, by decide, hfail, h.1, h.2.1, h.2.2.1⟩

/-! ## C2: pointer events go to one controller -/

theorem mouseDown_meta (L : Cinder) (event : MouseEvent) (w : World)
    (h : event.isMetaDown = true) :
    mouseDown L event w = .ok ()
      ⟨{ w.app with
          camUi_ := (L.camUiMouseDown event w.app.camUi_ w.app.camera_).1
          camera_ := (L.camUiMouseDown event w.app.camUi_ w.app.camera_).2 },
       w.calls ++ [.camUiMouseDown event]⟩ := by
  simp [mouseDown, bind_run, getApp_run, emit_run, modifyApp_run, h]

theorem mouseDown_plain (L : Cinder) (event : MouseEvent) (w : World)
    (h : event.isMetaDown = false) :
    mouseDown L event w = .ok ()
      ⟨{ w.app with arcball_ := L.arcballMouseDown event w.app.camera_ w.app.arcball_ },
       w.calls ++ [.arcballMouseDown event]⟩ := by
  simp [mouseDown, bind_run, getApp_run, emit_run, modifyApp_run, h]

theorem mouseDrag_meta (L : Cinder) (event : MouseEvent) (w : World)
    (h : event.isMetaDown = true) :
    mouseDrag L event w = .ok ()
      ⟨{ w.app with
          camUi_ := (L.camUiMouseDrag event w.app.camUi_ w.app.camera_).1
          camera_ := (L.camUiMouseDrag event w.app.camUi_ w.app.camera_).2 },
       w.calls ++ [.camUiMouseDrag event]⟩ := by
  simp [mouseDrag, bind_run, getApp_run, emit_run, modifyApp_run, h]

theorem mouseDrag_plain (L : Cinder) (event : MouseEvent) (w : World)
    (h : event.isMetaDown = false) :
    mouseDrag L event w = .ok ()
      ⟨{ w.app with arcball_ := L.arcballMouseDrag event w.app.camera_ w.app.arcball_ },
       w.calls ++ [.arcballMouseDrag event]⟩ := by
  simp [mouseDrag, bind_run, getApp_run, emit_run, modifyApp_run, h]

/-- C2: `mouseDown` and `mouseDrag` make exactly one controller call per event.
With the meta modifier down the one call is to `camUi_` (which drives `camera_`)
and `arcball_` is left as it was; without it the one call is to `arcball_` and
`camUi_` and `camera_` are left as they were.  No other member changes. -/
theorem pointer_event_goes_to_one_controller (L : Cinder) (event : MouseEvent) (w : World) :
    ((event.isMetaDown = true ∧
        mouseDown L event w = .ok ()
          ⟨{ w.app with
              camUi_ := (L.camUiMouseDown event w.app.camUi_ w.app.camera_).1
              camera_ := (L.camUiMouseDown event w.app.camUi_ w.app.camera_).2 },
           w.calls ++ [.camUiMouseDown event]⟩ ∧
        (mouseDown L event w).world.app.arcball_ = w.app.arcball_) ∨
      (event.isMetaDown = false ∧
        mouseDown L event w = .ok ()
          ⟨{ w.app with arcball_ := L.arcballMouseDown event w.app.camera_ w.app.arcball_ },
           w.calls ++ [.arcballMouseDown event]⟩ ∧
        (mouseDown L event w).world.app.camUi_ = w.app.camUi_ ∧
        (mouseDown L event w).world.app.camera_ = w.app.camera_)) ∧
    ((event.isMetaDown = true ∧
        mouseDrag L event w = .ok ()
          ⟨{ w.app with
              camUi_ := (L.camUiMouseDrag event w.app.camUi_ w.app.camera_).1
              camera_ := (L.camUiMouseDrag event w.app.camUi_ w.app.camera_).2 },
           w.calls ++ [.camUiMouseDrag event]⟩ ∧
        (mouseDrag L event w).world.app.arcball_ = w.app.arcball_) ∨
      (event.isMetaDown = false ∧
        mouseDrag L event w = .ok ()
          ⟨{ w.app with arcball_ := L.arcballMouseDrag event w.app.camera_ w.app.arcball_ },
           w.calls ++ [.arcballMouseDrag event]⟩ ∧
        (mouseDrag L event w).world.app.camUi_ = w.app.camUi_ ∧
        (mouseDrag L event w).world.app.camera_ = w.app.camera_)) := by
  cases h : event.isMetaDown with
  | true =>
    refine ⟨Or.inl ⟨rfl, mouseDown_meta L event w h, ?_⟩,
      Or.inl ⟨rfl, mouseDrag_meta L event w h, ?_⟩⟩
    · rw [mouseDown_meta L event w h]; rfl
    · rw [mouseDrag_meta L event w h]; rfl
  | false =>
    refine ⟨Or.inr ⟨rfl, mouseDown_plain L event w h, ?_, ?_⟩,
      Or.inr ⟨rfl, mouseDrag_plain L event w h, ?_, ?_⟩⟩
    · rw [mouseDown_plain L event w h]; rfl
    · rw [mouseDown_plain L event w h]; rfl
    · rw [mouseDrag_plain L event w h]; rfl
    · rw [mouseDrag_plain L event w h]; rfl

/-! ## C3: a file without vertices -/

/-- C3 refuted as stated: `empty.obj` parses to zero vertices, and `loadObj`
returns normally on it, with the empty mesh installed as `mesh_`, a batch built
from it and the zero sphere stored as `bounding_sphere_`. -/
theorem loadObj_accepts_zero_vertices :
    cinderLib.objLoader (.file "empty.obj") = .ok ⟨[], [], [], [], []⟩ ∧
    (loadObj cinderLib (.file "empty.obj") started).exc = none ∧
    (loadObj cinderLib (.file "empty.obj") started).world.app.mesh_ = ⟨[], [], [], []⟩ ∧
    (loadObj cinderLib (.file "empty.obj") started).world.app.batch_ =
      ⟨.triMesh ⟨[], [], [], []⟩, started.app.pbrShader_⟩ ∧
    (loadObj cinderLib (.file "empty.obj") started).world.app.bounding_sphere_ =
      ⟨⟨0, 0, 0⟩, 0⟩ := by
  refine ⟨rfl, ?_⟩
  decide

/-- C3, as the code has it: `loadObj` makes no vertex-count check.  For a source
whose mesh has zero vertices, when batch creation and the bounding-sphere
computation over zero points succeed, `loadObj` returns normally, having installed
that empty mesh as `mesh_`, the batch built from it as `batch_`, the sphere
computed over zero points as `bounding_sphere_`, and that sphere in the arcball. -/
theorem loadObj_zero_vertices_no_check (L : Cinder) (ds : DataSource) (w : World)
    (loader : ObjLoader) (created mesh : TriMesh) (batch : Batch) (sphere : Sphere)
    (hparse : L.objLoader ds = .ok loader)
    (hcreate : L.triMeshCreate loader = .ok created)
    (hmesh : MeshReady L loader created mesh)
    (hzero : mesh.getNumVertices = 0)
    (hbatch : L.batchCreate (.triMesh mesh) w.app.pbrShader_ = .ok batch)
    (hsphere : L.calculateBoundingSphere mesh.getPositions 0 = .ok sphere) :
    (loadObj L ds w).exc = none ∧
    (loadObj L ds w).world.app =
      { w.app with
          mesh_ := mesh
          batch_ := batch
          bounding_sphere_ := sphere
          arcball_ := L.arcballSetSphere w.app.arcball_ sphere } ∧
    (loadObj L ds w).world.app.mesh_.getNumVertices = 0 := by
  rw [← hzero] at hsphere
  rw [loadObj_success L ds w loader created mesh batch sphere hparse hcreate hmesh hbatch hsphere]
  exact ⟨rfl, rfl, hzero⟩

/-- C3 at the example session: `empty.obj` under `cinderLib`. -/
theorem loadObj_zero_vertices_no_check_witness :
    cinderLib.objLoader (.file "empty.obj") = .ok ⟨[], [], [], [], []⟩ ∧
    (loadObj cinderLib (.file "empty.obj") started).world.app =
      { started.app with
          mesh_ := ⟨[], [], [], []⟩
          batch_ := ⟨.triMesh ⟨[], [], [], []⟩, started.app.pbrShader_⟩
          bounding_sphere_ := ⟨Vec3.splat 0, 0⟩
          arcball_ := cinderLib.arcballSetSphere started.app.arcball_ ⟨Vec3.splat 0, 0⟩ } :=
  ⟨rfl, (loadObj_zero_vertices_no_check cinderLib (.file "empty.obj") started
    ⟨[], [], [], [], []⟩ ⟨[], [], [], []⟩ ⟨[], [], [], []⟩
    ⟨.triMesh ⟨[], [], [], []⟩, started.app.pbrShader_⟩ ⟨Vec3.splat 0, 0⟩
    rfl rfl (by simp [MeshReady, ObjLoader.getAvailableAttribs, cinderLib]) rfl rfl rfl).2.1⟩

/-! ## C7: key events -/

/-- C7: the key f assigns `camera_.calcFraming(bounding_sphere_)` to `camera_` and
changes no other member; the key l runs `loadObj` on the chosen file when the
path returned by the file dialog is non-empty and changes no member when it is
empty; any other key changes nothing. -/
theorem keyDown_effect (L : Cinder) (event : KeyEvent) (path : String) (w : World) :
    (event.getChar = 'f' →
      keyDown L event path w =
        .ok () ⟨{ w.app with camera_ := L.calcFraming w.app.camera_ w.app.bounding_sphere_ },
          w.calls ++ [.calcFraming w.app.bounding_sphere_]⟩) ∧
    (event.getChar = 'l' → path.isEmpty = false →
      keyDown L event path w =
        loadObj L (L.loadFile path) ⟨w.app, w.calls ++ [.getOpenFilePath]⟩) ∧
    (event.getChar = 'l' → path.isEmpty = true →
      keyDown L event path w = .ok () ⟨w.app, w.calls ++ [.getOpenFilePath]⟩) ∧
    (event.getChar ≠ 'l' → event.getChar ≠ 'f' → keyDown L event path w = .ok () w) :=
  ⟨keyDown_frame L event path w, keyDown_reload L event path w,
   keyDown_cancelled L event path w, keyDown_other L event path w⟩

/-! ## C4: normals are recalculated before the mesh is used -/

theorem split_after_three {a b r c : Call} {rest pre post : List Call}
    (h : a :: b :: r :: rest = pre ++ c :: post)
    (ha : a.isConsumer = false) (hb : b.isConsumer = false) (hr : r.isConsumer = false)
    (hc : c.isConsumer = true) : r ∈ pre ∧ c ∈ rest := by
  rcases pre with _ | ⟨p1, _ | ⟨p2, _ | ⟨p3, pre⟩⟩⟩
  · simp only [List.nil_append, List.cons.injEq] at h
    rw [← h.1, ha] at hc
    cases hc
  · simp only [List.cons_append, List.nil_append, List.cons.injEq] at h
    rw [← h.2.1, hb] at hc
    cases hc
  · simp only [List.cons_append, List.nil_append, List.cons.injEq] at h
    rw [← h.2.2.1, hr] at hc
    cases hc
  · simp only [List.cons_append, List.cons.injEq] at h
    refine ⟨?_, ?_⟩
    · rw [← h.2.2.1]
      simp
    · rw [h.2.2.2]
      simp

theorem count_normal_eq_zero (loader : ObjLoader) :
    loader.getAvailableAttribs.count Attrib.NORMAL = 0 ↔
      Attrib.NORMAL ∉ loader.getAvailableAttribs :=
  List.count_eq_zero

/-- C4: for a source that parses and yields a mesh, `loadObj` calls
`recalculateNormals` if and only if NORMAL is not among the loader's available
attributes.  When it is not, every call that hands the mesh on (batch creation,
bounding-sphere computation) comes after the recalculation in the call sequence
and receives the recalculated mesh, which is also the value of `mesh_`.  When
NORMAL is available, `mesh_` is the mesh exactly as built from the loader and
that is the mesh handed on. -/
theorem normals_recalculated_iff_absent (L : Cinder) (ds : DataSource) (w : World)
    (loader : ObjLoader) (created : TriMesh)
    (hparse : L.objLoader ds = .ok loader) (hcreate : L.triMeshCreate loader = .ok created) :
    ∃ new, (loadObj L ds w).world.calls = w.calls ++ new ∧
      (new.any Call.isRecalculate = true ↔ Attrib.NORMAL ∉ loader.getAvailableAttribs) ∧
      (Attrib.NORMAL ∉ loader.getAvailableAttribs →
        (∀ pre c post, new = pre ++ c :: post → c.isConsumer = true →
          Call.recalculateNormals created ∈ pre ∧
          ∃ mesh, L.recalculateNormals created = .ok mesh ∧ c.consumes mesh) ∧
        (∀ mesh, L.recalculateNormals created = .ok mesh →
          (loadObj L ds w).world.app.mesh_ = mesh)) ∧
      (Attrib.NORMAL ∈ loader.getAvailableAttribs →
        (loadObj L ds w).world.app.mesh_ = created ∧
        ∀ c ∈ new, c.isConsumer = true → c.consumes created) := by
  have key : ∀ (loader1 : ObjLoader) (created1 : TriMesh), L.objLoader ds = .ok loader1 →
      L.triMeshCreate loader1 = .ok created1 → loader1 = loader ∧ created1 = created := by
    intro loader1 created1 h1 h2
    rw [hparse] at h1
    injection h1 with h1
    subst h1
    rw [hcreate] at h2
    injection h2 with h2
    exact ⟨rfl, h2.symm⟩
  rcases loadObj_cases L ds w with
    ⟨e1, h1, hr⟩ | ⟨loader1, e1, h1, h2, hr⟩ | ⟨loader1, created1, e1, h1, h2, hn, h3, hr⟩ |
    ⟨loader1, created1, mesh, e1, h1, h2, h3, h4, hr⟩ |
    ⟨loader1, created1, mesh, batch, e1, h1, h2, h3, h4, h5, hr⟩ |
    ⟨loader1, created1, mesh, batch, sphere, h1, h2, h3, h4, h5, hr⟩
  · rw [hparse] at h1
    cases h1
  · rw [hparse] at h1
    injection h1 with h1
    subst h1
    rw [hcreate] at h2
    cases h2
  · obtain ⟨rfl, rfl⟩ := key loader1 created1 h1 h2
    have hnot := (count_normal_eq_zero loader1).1 hn
    refine ⟨[.objLoader ds, .triMeshCreate loader1, .recalculateNormals created1],
      by rw [hr]; rfl, ?_, ?_, ?_⟩
    · simp [Call.isRecalculate, hnot]
    · intro _
      refine ⟨?_, ?_⟩
      · intro pre c post hsplit hc
        have := (split_after_three hsplit rfl rfl rfl hc).2
        simp at this
      · intro mesh hm
        rw [h3] at hm
        cases hm
    · intro hin
      exact absurd hin hnot
  · obtain ⟨rfl, rfl⟩ := key loader1 created1 h1 h2
    unfold MeshReady at h3
    by_cases hn : loader1.getAvailableAttribs.count Attrib.NORMAL = 0
    · rw [if_pos hn] at h3
      have hnot := (count_normal_eq_zero loader1).1 hn
      refine ⟨[.objLoader ds, .triMeshCreate loader1, .recalculateNormals created1,
          .batchCreate (.triMesh mesh) w.app.pbrShader_],
        by rw [hr]; simp [meshCalls, hn, Res.world], ?_, ?_, ?_⟩
      · simp [Call.isRecalculate, hnot]
      · intro _
        refine ⟨?_, ?_⟩
        · intro pre c post hsplit hc
          obtain ⟨hpre, hmem⟩ := split_after_three hsplit rfl rfl rfl hc
          refine ⟨hpre, mesh, h3, ?_⟩
          simp only [List.mem_singleton] at hmem
          subst hmem
          simp [Call.consumes]
        · intro mesh1 hm
          rw [h3] at hm
          injection hm with hm
          rw [hr, ← hm]
          rfl
      · intro hin
        exact absurd hin hnot
    · rw [if_neg hn] at h3
      subst h3
      have hin : Attrib.NORMAL ∈ loader1.getAvailableAttribs := by
        by_contra hc
        exact hn ((count_normal_eq_zero loader1).2 hc)
      refine ⟨[.objLoader ds, .triMeshCreate loader1,
          .batchCreate (.triMesh mesh) w.app.pbrShader_],
        by rw [hr]; simp [meshCalls, hn, Res.world], ?_, ?_, ?_⟩
      · simp [Call.isRecalculate, hin]
      · intro hnot
        exact absurd hin hnot
      · intro _
        refine ⟨by rw [hr]; rfl, ?_⟩
        intro c hc hcons
        simp only [List.mem_cons, List.mem_singleton, List.not_mem_nil, or_false] at hc
        rcases hc with rfl | rfl | rfl
        · cases hcons
        · cases hcons
        · simp [Call.consumes]
  · obtain ⟨rfl, rfl⟩ := key loader1 created1 h1 h2
    unfold MeshReady at h3
    by_cases hn : loader1.getAvailableAttribs.count Attrib.NORMAL = 0
    · rw [if_pos hn] at h3
      have hnot := (count_normal_eq_zero loader1).1 hn
      refine ⟨[.objLoader ds, .triMeshCreate loader1, .recalculateNormals created1,
          .batchCreate (.triMesh mesh) w.app.pbrShader_,
          .calculateBoundingSphere mesh.getPositions mesh.getNumVertices],
        by rw [hr]; simp [meshCalls, hn, Res.world], ?_, ?_, ?_⟩
      · simp [Call.isRecalculate, hnot]
      · intro _
        refine ⟨?_, ?_⟩
        · intro pre c post hsplit hc
          obtain ⟨hpre, hmem⟩ := split_after_three hsplit rfl rfl rfl hc
          refine ⟨hpre, mesh, h3, ?_⟩
          simp only [List.mem_cons, List.mem_singleton, List.not_mem_nil, or_false] at hmem
          rcases hmem with rfl | rfl
          · simp [Call.consumes]
          · simp [Call.consumes]
        · intro mesh1 hm
          rw [h3] at hm
          injection hm with hm
          rw [hr, ← hm]
          rfl
      · intro hin
        exact absurd hin hnot
    · rw [if_neg hn] at h3
      subst h3
      have hin : Attrib.NORMAL ∈ loader1.getAvailableAttribs := by
        by_contra hc
        exact hn ((count_normal_eq_zero loader1).2 hc)
      refine ⟨[.objLoader ds, .triMeshCreate loader1,
          .batchCreate (.triMesh mesh) w.app.pbrShader_,
          .calculateBoundingSphere mesh.getPositions mesh.getNumVertices],
        by rw [hr]; simp [meshCalls, hn, Res.world], ?_, ?_, ?_⟩
      · simp [Call.isRecalculate, hin]
      · intro hnot
        exact absurd hin hnot
      · intro _
        refine ⟨by rw [hr]; rfl, ?_⟩
        intro c hc hcons
        simp only [List.mem_cons, List.mem_singleton, List.not_mem_nil, or_false] at hc
        rcases hc with rfl | rfl | rfl | rfl
        · cases hcons
        · cases hcons
        · simp [Call.consumes]
        · simp [Call.consumes]
  · obtain ⟨rfl, rfl⟩ := key loader1 created1 h1 h2
    unfold MeshReady at h3
    by_cases hn : loader1.getAvailableAttribs.count Attrib.NORMAL = 0
    · rw [if_pos hn] at h3
      have hnot := (count_normal_eq_zero loader1).1 hn
      refine ⟨[.objLoader ds, .triMeshCreate loader1, .recalculateNormals created1,
          .batchCreate (.triMesh mesh) w.app.pbrShader_,
          .calculateBoundingSphere mesh.getPositions mesh.getNumVertices,
          .arcballSetSphere sphere],
        by rw [hr]; simp [meshCalls, hn, Res.world], ?_, ?_, ?_⟩
      · simp [Call.isRecalculate, hnot]
      · intro _
        refine ⟨?_, ?_⟩
        · intro pre c post hsplit hc
          obtain ⟨hpre, hmem⟩ := split_after_three hsplit rfl rfl rfl hc
          refine ⟨hpre, mesh, h3, ?_⟩
          simp only [List.mem_cons, List.mem_singleton, List.not_mem_nil, or_false] at hmem
          rcases hmem with rfl | rfl | rfl
          · simp [Call.consumes]
          · simp [Call.consumes]
          · cases hc
        · intro mesh1 hm
          rw [h3] at hm
          injection hm with hm
          rw [hr, ← hm]
          rfl
      · intro hin
        exact absurd hin hnot
    · rw [if_neg hn] at h3
      subst h3
      have hin : Attrib.NORMAL ∈ loader1.getAvailableAttribs := by
        by_contra hc
        exact hn ((count_normal_eq_zero loader1).2 hc)
      refine ⟨[.objLoader ds, .triMeshCreate loader1,
          .batchCreate (.triMesh mesh) w.app.pbrShader_,
          .calculateBoundingSphere mesh.getPositions mesh.getNumVertices,
          .arcballSetSphere sphere],
        by rw [hr]; simp [meshCalls, hn, Res.world], ?_, ?_, ?_⟩
      · simp [Call.isRecalculate, hin]
      · intro hnot
        exact absurd hin hnot
      · intro _
        refine ⟨by rw [hr]; rfl, ?_⟩
        intro c hc hcons
        simp only [List.mem_cons, List.mem_singleton, List.not_mem_nil, or_false] at hc
        rcases hc with rfl | rfl | rfl | rfl | rfl
        · cases hcons
        · cases hcons
        · simp [Call.consumes]
        · simp [Call.consumes]
        · cases hcons

/-! ## Inverting a normal return -/

theorem call_run_ok {α : Type} (c : Call) (r : Except Exc α) (w w1 : World) (a : α)
    (h : call c r w = .ok a w1) : r = .ok a ∧ w1 = ⟨w.app, w.calls ++ [c]⟩ := by
  cases r with
  | error e => simp [call] at h
  | ok b =>
    simp only [call, Res.ok.injEq] at h
    exact ⟨by rw [h.1], h.2.symm⟩

theorem bind_ok {α β : Type} (m : M α) (f : α → M β) (w w2 : World) (b : β)
    (h : (m >>= f) w = .ok b w2) : ∃ a w1, m w = .ok a w1 ∧ f a w1 = .ok b w2 := by
  rw [bind_run] at h
  cases hm : m w with
  | ok a w1 =>
    rw [hm] at h
    exact ⟨a, w1, rfl, h⟩
  | threw e w1 =>
    rw [hm] at h
    cases h

theorem modifyApp_ok (f : CinderellaApp → CinderellaApp) (w w1 : World) (a : Unit)
    (h : modifyApp f w = .ok a w1) : w1 = ⟨f w.app, w.calls⟩ := by
  simp only [modifyApp, Res.ok.injEq] at h
  exact h.2.symm

theorem emit_ok (c : Call) (w w1 : World) (a : Unit)
    (h : emit c w = .ok a w1) : w1 = ⟨w.app, w.calls ++ [c]⟩ := by
  simp only [emit, Res.ok.injEq] at h
  exact h.2.symm

/-- What a normal return of `loadObj` has done. -/
theorem loadObj_ok (L : Cinder) (ds : DataSource) (w w1 : World)
    (h : loadObj L ds w = .ok () w1) :
    ∃ loader created mesh batch sphere, L.objLoader ds = .ok loader ∧
      L.triMeshCreate loader = .ok created ∧ MeshReady L loader created mesh ∧
      L.batchCreate (.triMesh mesh) w.app.pbrShader_ = .ok batch ∧
      L.calculateBoundingSphere mesh.getPositions mesh.getNumVertices = .ok sphere ∧
      w1 =
        ⟨{ w.app with
            mesh_ := mesh
            batch_ := batch
            bounding_sphere_ := sphere
            arcball_ := L.arcballSetSphere w.app.arcball_ sphere },
        w.calls ++ meshCalls ds loader created ++
          [.batchCreate (.triMesh mesh) w.app.pbrShader_,
           .calculateBoundingSphere mesh.getPositions mesh.getNumVertices,
           .arcballSetSphere sphere]⟩ := by
  rcases loadObj_cases L ds w with
    ⟨e1, h1, hr⟩ | ⟨loader, e1, h1, h2, hr⟩ | ⟨loader, created, e1, h1, h2, hn, h3, hr⟩ |
    ⟨loader, created, mesh, e1, h1, h2, h3, h4, hr⟩ |
    ⟨loader, created, mesh, batch, e1, h1, h2, h3, h4, h5, hr⟩ |
    ⟨loader, created, mesh, batch, sphere, h1, h2, h3, h4, h5, hr⟩
  · rw [hr] at h; cases h
  · rw [hr] at h; cases h
  · rw [hr] at h; cases h
  · rw [hr] at h; cases h
  · rw [hr] at h; cases h
  · rw [hr] at h
    injection h with _ hw
    exact ⟨loader, created, mesh, batch, sphere, h1, h2, h3, h4, h5, hw.symm⟩

/-- What a normal return of `setup` has done: the camera was framed on the fixed
sphere, then `loadObj` ran on the asset and returned, then the remaining members
were assigned. -/
theorem setup_ok (L : Cinder) (window : Window) (w0 w : World)
    (h : setup L window w0 = .ok () w) :
    ∃ (dragon : DataSource) (w1 w2 : World),
      w1.app.camera_ = L.calcFraming (L.cameraPersp window.width window.height 50.0 1.0 1000.0)
        ⟨Vec3.splat 0.0, 12.0⟩ ∧
      loadObj L dragon w1 = .ok () w2 ∧
      w.app.camera_ = w2.app.camera_ ∧
      w.app.mesh_ = w2.app.mesh_ ∧
      w.app.bounding_sphere_ = w2.app.bounding_sphere_ ∧
      w.app.arcball_ = L.arcball w2.app.camera_ w2.app.bounding_sphere_ ∧
      w.app.base_color_ = L.colorHex 0xFF0000 ∧
      w.app.specular_ = 1.0 ∧ w.app.gamma_ = 2.2 ∧ w.app.exposure_ = 5.5 ∧
      w.app.roughness_ = 0.4 ∧ w.app.metallic_ = 0.1 := by
  unfold setup at h
  obtain ⟨pbrVert, w1, h1, h⟩ := bind_ok _ _ _ _ _ h
  obtain ⟨-, rfl⟩ := call_run_ok _ _ _ _ _ h1
  clear h1
  obtain ⟨pbrFrag, w1, h1, h⟩ := bind_ok _ _ _ _ _ h
  obtain ⟨-, rfl⟩ := call_run_ok _ _ _ _ _ h1
  clear h1
  obtain ⟨pbr, w1, h1, h⟩ := bind_ok _ _ _ _ _ h
  obtain ⟨-, rfl⟩ := call_run_ok _ _ _ _ _ h1
  clear h1
  obtain ⟨_, w1, h1, h⟩ := bind_ok _ _ _ _ _ h
  obtain rfl := modifyApp_ok _ _ _ _ h1
  clear h1
  obtain ⟨skyVert, w1, h1, h⟩ := bind_ok _ _ _ _ _ h
  obtain ⟨-, rfl⟩ := call_run_ok _ _ _ _ _ h1
  clear h1
  obtain ⟨skyFrag, w1, h1, h⟩ := bind_ok _ _ _ _ _ h
  obtain ⟨-, rfl⟩ := call_run_ok _ _ _ _ _ h1
  clear h1
  obtain ⟨sky, w1, h1, h⟩ := bind_ok _ _ _ _ _ h
  obtain ⟨-, rfl⟩ := call_run_ok _ _ _ _ _ h1
  clear h1
  obtain ⟨_, w1, h1, h⟩ := bind_ok _ _ _ _ _ h
  obtain rfl := modifyApp_ok _ _ _ _ h1
  clear h1
  obtain ⟨_, w1, h1, h⟩ := bind_ok _ _ _ _ _ h
  obtain rfl := emit_ok _ _ _ _ h1
  clear h1
  obtain ⟨_, w1, h1, h⟩ := bind_ok _ _ _ _ _ h
  obtain rfl := modifyApp_ok _ _ _ _ h1
  clear h1
  obtain ⟨_, w1, h1, h⟩ := bind_ok _ _ _ _ _ h
  obtain rfl := modifyApp_ok _ _ _ _ h1
  clear h1
  obtain ⟨skybox, w1, h1, h⟩ := bind_ok _ _ _ _ _ h
  obtain ⟨-, rfl⟩ := call_run_ok _ _ _ _ _ h1
  clear h1
  obtain ⟨_, w1, h1, h⟩ := bind_ok _ _ _ _ _ h
  obtain rfl := modifyApp_ok _ _ _ _ h1
  clear h1
  obtain ⟨_, w1, h1, h⟩ := bind_ok _ _ _ _ _ h
  obtain rfl := emit_ok _ _ _ _ h1
  clear h1
  obtain ⟨dragon, w1, h1, h⟩ := bind_ok _ _ _ _ _ h
  obtain ⟨-, rfl⟩ := call_run_ok _ _ _ _ _ h1
  clear h1
  obtain ⟨_, w2, hload, h⟩ := bind_ok _ _ _ _ _ h
  obtain ⟨irrSrc, w3, h1, h⟩ := bind_ok _ _ _ _ _ h
  obtain ⟨-, rfl⟩ := call_run_ok _ _ _ _ _ h1
  clear h1
  obtain ⟨irr, w3, h1, h⟩ := bind_ok _ _ _ _ _ h
  obtain ⟨-, rfl⟩ := call_run_ok _ _ _ _ _ h1
  clear h1
  obtain ⟨_, w3, h1, h⟩ := bind_ok _ _ _ _ _ h
  obtain rfl := modifyApp_ok _ _ _ _ h1
  clear h1
  obtain ⟨radSrc, w3, h1, h⟩ := bind_ok _ _ _ _ _ h
  obtain ⟨-, rfl⟩ := call_run_ok _ _ _ _ _ h1
  clear h1
  obtain ⟨rad, w3, h1, h⟩ := bind_ok _ _ _ _ _ h
  obtain ⟨-, rfl⟩ := call_run_ok _ _ _ _ _ h1
  clear h1
  simp only [bind_run, modifyApp_run, emit_run, Res.ok.injEq, true_and] at h
  subst h
  exact ⟨dragon, _, w2, rfl, hload, rfl, rfl, rfl, rfl, rfl, rfl, rfl, rfl, rfl, rfl⟩

/-! ## What a handler can do to the member variables -/

/-- The function `draw` returns normally, leaves every member variable as it was,
and issues the commands `drawCalls`. -/
theorem draw_run (w : World) : draw w = .ok () ⟨w.app, w.calls ++ drawCalls w.app⟩ := by
  simp [draw, drawCalls, bind_run, getApp_run, emit_run]

/-- The member variables after a handler that returned: unchanged; or only
`camUi_` and `camera_` changed; or only `arcball_` changed, by a pointer event;
or `loadObj` ran and returned. -/
theorem handle_ok_cases (L : Cinder) (ev : Event) (s : CinderellaApp) (log : List Call)
    (w : World) (h : handle L ev ⟨s, log⟩ = .ok () w) :
    w.app = s ∨
    (∃ cu cam, w.app = { s with camUi_ := cu, camera_ := cam }) ∨
    (∃ e, w.app = { s with arcball_ := L.arcballMouseDown e s.camera_ s.arcball_ }) ∨
    (∃ e, w.app = { s with arcball_ := L.arcballMouseDrag e s.camera_ s.arcball_ }) ∨
    (∃ ds log1, loadObj L ds ⟨s, log1⟩ = .ok () w) := by
  cases ev with
  | mouseDown event =>
    simp only [handle] at h
    cases hm : event.isMetaDown with
    | true =>
      rw [mouseDown_meta L event _ hm] at h
      injection h with _ hw
      subst hw
      exact Or.inr (Or.inl ⟨_, _, rfl⟩)
    | false =>
      rw [mouseDown_plain L event _ hm] at h
      injection h with _ hw
      subst hw
      exact Or.inr (Or.inr (Or.inl ⟨event, rfl⟩))
  | mouseDrag event =>
    simp only [handle] at h
    cases hm : event.isMetaDown with
    | true =>
      rw [mouseDrag_meta L event _ hm] at h
      injection h with _ hw
      subst hw
      exact Or.inr (Or.inl ⟨_, _, rfl⟩)
    | false =>
      rw [mouseDrag_plain L event _ hm] at h
      injection h with _ hw
      subst hw
      exact Or.inr (Or.inr (Or.inr (Or.inl ⟨event, rfl⟩)))
  | keyDown event path =>
    simp only [handle] at h
    by_cases hl : event.getChar = 'l'
    · cases hp : path.isEmpty with
      | true =>
        rw [keyDown_cancelled L event path _ hl hp] at h
        injection h with _ hw
        subst hw
        exact Or.inl rfl
      | false =>
        rw [keyDown_reload L event path _ hl hp] at h
        exact Or.inr (Or.inr (Or.inr (Or.inr ⟨_, _, h⟩)))
    · by_cases hf : event.getChar = 'f'
      · rw [keyDown_frame L event path _ hf] at h
        injection h with _ hw
        subst hw
        exact Or.inr (Or.inl ⟨s.camUi_, _, rfl⟩)
      · rw [keyDown_other L event path _ hl hf] at h
        injection h with _ hw
        subst hw
        exact Or.inl rfl
  | draw =>
    simp only [handle] at h
    rw [draw_run] at h
    injection h with _ hw
    subst hw
    exact Or.inl rfl

/-! ## C5: the bounding sphere follows the mesh -/

/-- C5: in every state of a running session, `bounding_sphere_` is the sphere
computed from the positions and vertex count of the current `mesh_`, and the
sphere of the arcball is `bounding_sphere_`.  In particular a `loadObj` that
returns has replaced `mesh_` by the mesh built from the source, recomputed
`bounding_sphere_` from that mesh and passed it to the arcball by `setSphere`. -/
theorem bounding_sphere_follows_mesh (L : Cinder) (window : Window)
    (hL : ArcballKeepsSphere L) (s : CinderellaApp) (hs : Reachable L window s) :
    (L.calculateBoundingSphere s.mesh_.getPositions s.mesh_.getNumVertices =
        .ok s.bounding_sphere_ ∧
      s.arcball_.getSphere = s.bounding_sphere_) ∧
    (∀ ds w w1, loadObj L ds w = .ok () w1 →
      (∃ loader created, L.objLoader ds = .ok loader ∧
        L.triMeshCreate loader = .ok created ∧ MeshReady L loader created w1.app.mesh_) ∧
      L.calculateBoundingSphere w1.app.mesh_.getPositions w1.app.mesh_.getNumVertices =
        .ok w1.app.bounding_sphere_ ∧
      w1.app.arcball_ = L.arcballSetSphere w.app.arcball_ w1.app.bounding_sphere_) := by
  have hload : ∀ ds w w1, loadObj L ds w = .ok () w1 →
      (∃ loader created, L.objLoader ds = .ok loader ∧
        L.triMeshCreate loader = .ok created ∧ MeshReady L loader created w1.app.mesh_) ∧
      L.calculateBoundingSphere w1.app.mesh_.getPositions w1.app.mesh_.getNumVertices =
        .ok w1.app.bounding_sphere_ ∧
      w1.app.arcball_ = L.arcballSetSphere w.app.arcball_ w1.app.bounding_sphere_ := by
    intro ds w w1 h
    obtain ⟨loader, created, mesh, batch, sphere, h1, h2, h3, _, h5, rfl⟩ :=
      loadObj_ok L ds w w1 h
    exact ⟨⟨loader, created, h1, h2, h3⟩, h5, rfl⟩
  refine ⟨?_, hload⟩
  induction hs with
  | setup w0 w h =>
    obtain ⟨dragon, w1, w2, _, hl, _, hmesh, hbs, harc, _⟩ := setup_ok L window w0 w h
    obtain ⟨_, h5, _⟩ := hload dragon w1 w2 hl
    rw [hmesh, hbs, harc]
    exact ⟨h5, hL.ctor _ _⟩
  | handle ev s log w _ h ih =>
    rcases handle_ok_cases L ev s log w h with
      heq | ⟨cu, cam, heq⟩ | ⟨e, heq⟩ | ⟨e, heq⟩ | ⟨ds, log1, hl⟩
    · rw [heq]
      exact ih
    · rw [heq]
      exact ih
    · rw [heq]
      exact ⟨ih.1, (hL.mouseDown _ _ _).trans ih.2⟩
    · rw [heq]
      exact ⟨ih.1, (hL.mouseDrag _ _ _).trans ih.2⟩
    · obtain ⟨_, h5, harc⟩ := hload ds _ w hl
      refine ⟨h5, ?_⟩
      rw [harc]
      exact hL.setSphere _ _

/-! ## The example session -/

theorem setup_cinderLib_ok : setup cinderLib window0 ⟨unset, []⟩ = .ok () started :=
  Res.eq_ok_of_returned _ (by decide)

theorem started_reachable : Reachable cinderLib window0 started.app :=
  Reachable.setup ⟨unset, []⟩ started setup_cinderLib_ok

theorem reload_cinderLib_ok : keyDown cinderLib ⟨'l'⟩ "quad.obj" started = .ok () reloaded :=
  Res.eq_ok_of_returned _ (by decide)

theorem reloaded_reachable : Reachable cinderLib window0 reloaded.app :=
  Reachable.handle (.keyDown ⟨'l'⟩ "quad.obj") started.app started.calls reloaded
    started_reachable reload_cinderLib_ok

theorem cinderLib_arcball : ArcballKeepsSphere cinderLib where
  ctor _ _ := rfl
  setSphere _ _ := rfl
  mouseDown _ _ _ := rfl
  mouseDrag e _ a := by
    show (if a.mInitialMousePos = ⟨e.x, e.y⟩ then _ else _ : Arcball).getSphere = _
    split <;> rfl

/-- C5 at the example session after the reload of `quad.obj`. -/
theorem bounding_sphere_follows_mesh_witness :
    ArcballKeepsSphere cinderLib ∧ Reachable cinderLib window0 reloaded.app ∧
    cinderLib.calculateBoundingSphere reloaded.app.mesh_.getPositions
      reloaded.app.mesh_.getNumVertices = .ok reloaded.app.bounding_sphere_ ∧
    reloaded.app.arcball_.getSphere = reloaded.app.bounding_sphere_ :=
  ⟨cinderLib_arcball, reloaded_reachable,
    (bounding_sphere_follows_mesh cinderLib window0 cinderLib_arcball reloaded.app
      reloaded_reachable).1⟩

/-- C4 at the asset `dragon.obj`, which has no normals. -/
theorem normals_recalculated_iff_absent_witness :
    cinderLib.objLoader (.asset "dragon.obj") =
      .ok ⟨[⟨0, 0, 0⟩, ⟨2, 0, 0⟩, ⟨0, 2, 0⟩], [], [], [0, 1, 2], [.POSITION]⟩ ∧
    cinderLib.triMeshCreate ⟨[⟨0, 0, 0⟩, ⟨2, 0, 0⟩, ⟨0, 2, 0⟩], [], [], [0, 1, 2], [.POSITION]⟩ =
      .ok ⟨[⟨0, 0, 0⟩, ⟨2, 0, 0⟩, ⟨0, 2, 0⟩], [], [], [0, 1, 2]⟩ ∧
    ∃ new, (loadObj cinderLib (.asset "dragon.obj") ⟨unset, []⟩).world.calls = [] ++ new ∧
      (new.any Call.isRecalculate = true ↔
        Attrib.NORMAL ∉ ObjLoader.getAvailableAttribs
          ⟨[⟨0, 0, 0⟩, ⟨2, 0, 0⟩, ⟨0, 2, 0⟩], [], [], [0, 1, 2], [.POSITION]⟩) :=
  ⟨rfl, rfl,
    match normals_recalculated_iff_absent cinderLib (.asset "dragon.obj") ⟨unset, []⟩
      ⟨[⟨0, 0, 0⟩, ⟨2, 0, 0⟩, ⟨0, 2, 0⟩], [], [], [0, 1, 2], [.POSITION]⟩
      ⟨[⟨0, 0, 0⟩, ⟨2, 0, 0⟩, ⟨0, 2, 0⟩], [], [], [0, 1, 2]⟩ rfl rfl with
    | ⟨new, h1, h2, _⟩ => ⟨new, h1, h2⟩⟩

/-- C7 at the example session: the key f, the key l with the dialog cancelled, and
another key. -/
theorem keyDown_effect_witness :
    keyDown cinderLib ⟨'f'⟩ "" started =
      .ok () ⟨{ started.app with
                camera_ := cinderLib.calcFraming started.app.camera_ started.app.bounding_sphere_ },
        started.calls ++ [.calcFraming started.app.bounding_sphere_]⟩ ∧
    keyDown cinderLib ⟨'l'⟩ "" started = .ok () ⟨started.app, started.calls ++ [.getOpenFilePath]⟩ ∧
    keyDown cinderLib ⟨'x'⟩ "" started = .ok () started :=
  ⟨(keyDown_effect cinderLib ⟨'f'⟩ "" started).1 rfl,
   (keyDown_effect cinderLib ⟨'l'⟩ "" started).2.2.1 rfl rfl,
   (keyDown_effect cinderLib ⟨'x'⟩ "" started).2.2.2 (by decide) (by decide)⟩

/-! ## C9: the shading parameters -/

/-- A handler that returns leaves the six shading parameters as they were. -/
theorem handle_keeps_shading (L : Cinder) (ev : Event) (s : CinderellaApp) (log : List Call)
    (w : World) (h : handle L ev ⟨s, log⟩ = .ok () w) :
    w.app.base_color_ = s.base_color_ ∧ w.app.specular_ = s.specular_ ∧
    w.app.gamma_ = s.gamma_ ∧ w.app.exposure_ = s.exposure_ ∧
    w.app.roughness_ = s.roughness_ ∧ w.app.metallic_ = s.metallic_ := by
  rcases handle_ok_cases L ev s log w h with
    heq | ⟨cu, cam, heq⟩ | ⟨e, heq⟩ | ⟨e, heq⟩ | ⟨ds, log1, hl⟩
  · rw [heq]
    exact ⟨rfl, rfl, rfl, rfl, rfl, rfl⟩
  · rw [heq]
    exact ⟨rfl, rfl, rfl, rfl, rfl, rfl⟩
  · rw [heq]
    exact ⟨rfl, rfl, rfl, rfl, rfl, rfl⟩
  · rw [heq]
    exact ⟨rfl, rfl, rfl, rfl, rfl, rfl⟩
  · obtain ⟨loader, created, mesh, batch, sphere, _, _, _, _, _, rfl⟩ := loadObj_ok L ds _ w hl
    exact ⟨rfl, rfl, rfl, rfl, rfl, rfl⟩

/-- C9: in the state `setup` returns with and in every state reached from it by
pointer, key and draw events, the base color is `Color::hex(0xFF0000)`, specular
is 1.0, gamma 2.2, exposure 5.5, roughness 0.4 and metallic 0.1; specular,
roughness and metallic lie in [0,1], gamma and exposure are positive; and no
handler that returns has changed any of the six. -/
theorem shading_parameters_keep_defaults (L : Cinder) (window : Window)
    (s : CinderellaApp) (hs : Reachable L window s) :
    (s.base_color_ = L.colorHex 0xFF0000 ∧ s.specular_ = 1.0 ∧ s.gamma_ = 2.2 ∧
      s.exposure_ = 5.5 ∧ s.roughness_ = 0.4 ∧ s.metallic_ = 0.1) ∧
    (0 ≤ s.specular_ ∧ s.specular_ ≤ 1 ∧ 0 ≤ s.roughness_ ∧ s.roughness_ ≤ 1 ∧
      0 ≤ s.metallic_ ∧ s.metallic_ ≤ 1 ∧ 0 < s.gamma_ ∧ 0 < s.exposure_) ∧
    (∀ ev log w, handle L ev ⟨s, log⟩ = .ok () w →
      w.app.base_color_ = s.base_color_ ∧ w.app.specular_ = s.specular_ ∧
      w.app.gamma_ = s.gamma_ ∧ w.app.exposure_ = s.exposure_ ∧
      w.app.roughness_ = s.roughness_ ∧ w.app.metallic_ = s.metallic_) := by
  have hval : s.base_color_ = L.colorHex 0xFF0000 ∧ s.specular_ = 1.0 ∧ s.gamma_ = 2.2 ∧
      s.exposure_ = 5.5 ∧ s.roughness_ = 0.4 ∧ s.metallic_ = 0.1 := by
    induction hs with
    | setup w0 w h =>
      obtain ⟨_, _, _, _, _, _, _, _, _, hc, h1, h2, h3, h4, h5⟩ := setup_ok L window w0 w h
      exact ⟨hc, h1, h2, h3, h4, h5⟩
    | handle ev s log w _ h ih =>
      obtain ⟨k0, k1, k2, k3, k4, k5⟩ := handle_keeps_shading L ev s log w h
      rw [k0, k1, k2, k3, k4, k5]
      exact ih
  refine ⟨hval, ?_, fun ev log w h => handle_keeps_shading L ev s log w h⟩
  obtain ⟨_, h1, h2, h3, h4, h5⟩ := hval
  rw [h1, h2, h3, h4, h5]
  norm_num

/-- C9 at the example session after the reload of `quad.obj`. -/
theorem shading_parameters_keep_defaults_witness :
    Reachable cinderLib window0 reloaded.app ∧
    reloaded.app.gamma_ = 2.2 ∧ reloaded.app.exposure_ = 5.5 ∧ reloaded.app.roughness_ = 0.4 :=
  ⟨reloaded_reachable,
   (shading_parameters_keep_defaults cinderLib window0 reloaded.app reloaded_reachable).1.2.2.1,
   (shading_parameters_keep_defaults cinderLib window0 reloaded.app reloaded_reachable).1.2.2.2.1,
   (shading_parameters_keep_defaults cinderLib window0 reloaded.app
     reloaded_reachable).1.2.2.2.2.1⟩

/-! ## C6: loading does not frame the camera -/

/-- C6 refuted as stated: in the example session the camera after `setup` is not
the camera framed on the bounding sphere of the mesh just loaded (its pivot
distance is 36, framing on that sphere gives 6), and after the reload of
`quad.obj` the camera is still the one from before the reload, not the one framed
on the new bounding sphere (pivot distance 36 against 24). -/
theorem camera_not_framed_on_loaded_mesh :
    (setup cinderLib window0 ⟨unset, []⟩).returned = true ∧
    started.app.camera_ ≠
      cinderLib.calcFraming (cinderLib.cameraPersp window0.width window0.height 50.0 1.0 1000.0)
        started.app.bounding_sphere_ ∧
    (keyDown cinderLib ⟨'l'⟩ "quad.obj" started).returned = true ∧
    reloaded.app.camera_ ≠ cinderLib.calcFraming started.app.camera_ reloaded.app.bounding_sphere_ := by
  have h36 : started.app.camera_.pivotDistance = 36 := by
    show (3 : ℚ) * 12.0 = 36
    norm_num
  have h36r : reloaded.app.camera_.pivotDistance = 36 := by
    show (3 : ℚ) * 12.0 = 36
    norm_num
  have hs : started.app.bounding_sphere_ = ⟨⟨0, 0, 0⟩, 2⟩ := by
    show enclosingSphere [⟨0, 0, 0⟩, ⟨2, 0, 0⟩, ⟨0, 2, 0⟩] = _
    simp [enclosingSphere]
  have hr : reloaded.app.bounding_sphere_ = ⟨⟨1, 1, 0⟩, 8⟩ := by
    show enclosingSphere [⟨1, 1, 0⟩, ⟨5, 1, 0⟩, ⟨5, 5, 0⟩, ⟨1, 5, 0⟩] = _
    simp [enclosingSphere]
    norm_num
  refine ⟨by decide, ?_, by decide, ?_⟩
  · intro h
    have h2 := congrArg CameraPersp.pivotDistance h
    rw [h36, hs] at h2
    simp [cinderLib] at h2
    norm_num at h2
  · intro h
    have h2 := congrArg CameraPersp.pivotDistance h
    rw [h36r, hr] at h2
    simp [cinderLib] at h2
    norm_num at h2

/-- C6, as the code has it: loading does not invoke the framing operation.
`setup` frames the camera once, before the startup load, on the fixed sphere with
centre `vec3(0)` and radius 12, and that is `camera_` when `setup` returns,
whatever mesh was loaded.  A key l press that returns (after a successful reload)
leaves `camera_` as it was and makes no `calcFraming` call. -/
theorem load_does_not_frame_camera (L : Cinder) (window : Window) (w0 w v v1 : World)
    (event : KeyEvent) (path : String)
    (hsetup : setup L window w0 = .ok () w)
    (hkey : event.getChar = 'l')
    (hreload : keyDown L event path v = .ok () v1) :
    w.app.camera_ =
      L.calcFraming (L.cameraPersp window.width window.height 50.0 1.0 1000.0)
        ⟨Vec3.splat 0.0, 12.0⟩ ∧
    v1.app.camera_ = v.app.camera_ ∧
    ∃ new, v1.calls = v.calls ++ new ∧ ∀ sphere, Call.calcFraming sphere ∉ new := by
  refine ⟨?_, ?_⟩
  · obtain ⟨dragon, w1, w2, hcam, hl, hc, _⟩ := setup_ok L window w0 w hsetup
    obtain ⟨loader, created, mesh, batch, sphere, _, _, _, _, _, rfl⟩ := loadObj_ok L dragon w1 w2 hl
    rw [hc]
    exact hcam
  · cases hp : path.isEmpty with
    | true =>
      rw [keyDown_cancelled L event path v hkey hp] at hreload
      injection hreload with _ hw
      subst hw
      exact ⟨rfl, [.getOpenFilePath], rfl, by simp⟩
    | false =>
      rw [keyDown_reload L event path v hkey hp] at hreload
      obtain ⟨loader, created, mesh, batch, sphere, _, _, _, _, _, rfl⟩ :=
        loadObj_ok L _ _ v1 hreload
      refine ⟨rfl, [.getOpenFilePath] ++ meshCalls (L.loadFile path) loader created ++
        [.batchCreate (.triMesh mesh) v.app.pbrShader_,
         .calculateBoundingSphere mesh.getPositions mesh.getNumVertices,
         .arcballSetSphere sphere], by simp, ?_⟩
      intro sp
      unfold meshCalls
      split <;> simp

/-- C6 at the example session: `setup`, then the reload of `quad.obj`. -/
theorem load_does_not_frame_camera_witness :
    setup cinderLib window0 ⟨unset, []⟩ = .ok () started ∧
    (KeyEvent.mk 'l').getChar = 'l' ∧
    keyDown cinderLib ⟨'l'⟩ "quad.obj" started = .ok () reloaded ∧
    started.app.camera_ =
      cinderLib.calcFraming (cinderLib.cameraPersp window0.width window0.height 50.0 1.0 1000.0)
        ⟨Vec3.splat 0.0, 12.0⟩ ∧
    reloaded.app.camera_ = started.app.camera_ :=
  have h := load_does_not_frame_camera cinderLib window0 ⟨unset, []⟩ started started reloaded
    ⟨'l'⟩ "quad.obj" setup_cinderLib_ok rfl reload_cinderLib_ok
  ⟨setup_cinderLib_ok, rfl, reload_cinderLib_ok, h.1, h.2.1⟩

/-! ## C8 and C10: the command stream of `draw` -/

/-- C8: one `draw` issues, in this order: before the mesh is drawn, the binding of
the radiance map and of the irradiance map to two different texture units, the
object program's sampler uniforms set to those units, and the six shading
parameters with their current values set on the object program; then the mesh
draw; then, as the only uniforms between the two draws, exposure and gamma set on
the skybox program with the same values; then the skybox draw.  No draw precedes
the mesh draw and no uniform follows the skybox draw; when the two programs
differ, exposure and gamma are all the skybox program receives in the frame. -/
theorem draw_command_order (w : World) :
    ∃ pre mid post,
      draw w = .ok () ⟨w.app, w.calls ++
        (pre ++ [.batchDraw w.app.batch_] ++ mid ++ [.batchDraw w.app.skybox_batch_] ++ post)⟩ ∧
      (∃ rSlot iSlot : Nat, rSlot ≠ iSlot ∧
        Call.textureBind w.app.radianceMap_ rSlot ∈ pre ∧
        Call.textureBind w.app.irradianceMap_ iSlot ∈ pre ∧
        Call.uniform w.app.batch_.getGlslProg "radianceMap" (.int rSlot) ∈ pre ∧
        Call.uniform w.app.batch_.getGlslProg "irradianceMap" (.int iSlot) ∈ pre) ∧
      (Call.uniform w.app.batch_.getGlslProg "baseColor" (.color w.app.base_color_) ∈ pre ∧
        Call.uniform w.app.batch_.getGlslProg "specular" (.float w.app.specular_) ∈ pre ∧
        Call.uniform w.app.batch_.getGlslProg "exposure" (.float w.app.exposure_) ∈ pre ∧
        Call.uniform w.app.batch_.getGlslProg "gamma" (.float w.app.gamma_) ∈ pre ∧
        Call.uniform w.app.batch_.getGlslProg "roughness" (.float w.app.roughness_) ∈ pre ∧
        Call.uniform w.app.batch_.getGlslProg "metallic" (.float w.app.metallic_) ∈ pre) ∧
      (∀ b, Call.batchDraw b ∉ pre) ∧ (∀ b, Call.batchDraw b ∉ mid) ∧
      mid.filter Call.isUniform =
        [.uniform w.app.skybox_batch_.getGlslProg "exposure" (.float w.app.exposure_),
         .uniform w.app.skybox_batch_.getGlslProg "gamma" (.float w.app.gamma_)] ∧
      post.filter Call.isUniform = [] ∧
      (w.app.batch_.getGlslProg ≠ w.app.skybox_batch_.getGlslProg →
        (pre ++ [Call.batchDraw w.app.batch_] ++ mid ++ [Call.batchDraw w.app.skybox_batch_] ++
            post).filter (Call.isUniformOf w.app.skybox_batch_.getGlslProg) =
          [.uniform w.app.skybox_batch_.getGlslProg "exposure" (.float w.app.exposure_),
           .uniform w.app.skybox_batch_.getGlslProg "gamma" (.float w.app.gamma_)]) := by
  refine ⟨[.enableDepthWrite, .enableDepthRead, .clear ⟨0, 0, 0⟩,
      .scopedDepthEnter true, .scopedDepthExit,
      .textureBind w.app.radianceMap_ 0, .textureBind w.app.irradianceMap_ 1,
      .uniform w.app.batch_.getGlslProg "radianceMap" (.int 0),
      .uniform w.app.batch_.getGlslProg "irradianceMap" (.int 1),
      .uniform w.app.batch_.getGlslProg "baseColor" (.color w.app.base_color_),
      .uniform w.app.batch_.getGlslProg "specular" (.float w.app.specular_),
      .uniform w.app.batch_.getGlslProg "exposure" (.float w.app.exposure_),
      .uniform w.app.batch_.getGlslProg "gamma" (.float w.app.gamma_),
      .uniform w.app.batch_.getGlslProg "roughness" (.float w.app.roughness_),
      .uniform w.app.batch_.getGlslProg "metallic" (.float w.app.metallic_),
      .setMatrices w.app.camera_, .pushMatrices, .rotate w.app.arcball_.getQuat],
    [.uniform w.app.skybox_batch_.getGlslProg "exposure" (.float w.app.exposure_),
      .uniform w.app.skybox_batch_.getGlslProg "gamma" (.float w.app.gamma_)],
    [.popMatrices, .textureUnbind w.app.irradianceMap_ 1, .textureUnbind w.app.radianceMap_ 0],
    ?_, ⟨0, 1, by decide, ?_, ?_, ?_, ?_⟩, ?_, ?_, ?_, ?_, ?_, ?_⟩
  · rw [draw_run]
    rfl
  · simp
  · simp
  · simp
  · simp
  · simp
  · intro b
    simp
  · intro b
    simp
  · simp [Call.isUniform]
  · simp [Call.isUniform]
  · intro hne
    simp [Call.isUniformOf, hne]

/-- C8 at the example session: the two programs differ there, and exposure and
gamma are all the skybox program receives in the frame. -/
theorem draw_command_order_witness :
    started.app.batch_.getGlslProg ≠ started.app.skybox_batch_.getGlslProg ∧
    (draw ⟨started.app, []⟩).returned = true ∧
    (draw ⟨started.app, []⟩).world.calls.filter
        (Call.isUniformOf started.app.skybox_batch_.getGlslProg) =
      [.uniform started.app.skybox_batch_.getGlslProg "exposure" (.float started.app.exposure_),
       .uniform started.app.skybox_batch_.getGlslProg "gamma" (.float started.app.gamma_)] :=
  match draw_command_order ⟨started.app, []⟩ with
  | ⟨_, _, _, hrun, _, _, _, _, _, _, hsky⟩ =>
    have hne : started.app.batch_.getGlslProg ≠ started.app.skybox_batch_.getGlslProg := by
      decide
    ⟨hne, by rw [hrun]; rfl, by rw [hrun]; exact hsky hne⟩

/-- C10: one `draw` pushes the matrix stack once and pops it once; the arcball
rotation is applied right after the push, and the mesh draw and the skybox draw
both lie between the push and the pop, so both are drawn under the camera
matrices rotated by the arcball quaternion; after the `draw` the stack has the
depth it had before and its top is the camera matrices without the rotation,
which is the stack as it was just before the push. -/
theorem draw_matrix_stack_balanced (w : World) (st : MatrixStack) :
    ∃ cmds a b c,
      draw w = .ok () ⟨w.app, w.calls ++ cmds⟩ ∧
      cmds = a ++ [.pushMatrices, .rotate w.app.arcball_.getQuat] ++ b ++ [.popMatrices] ++ c ∧
      cmds.count .pushMatrices = 1 ∧
      cmds.count .popMatrices = 1 ∧
      Call.batchDraw w.app.batch_ ∈ b ∧ Call.batchDraw w.app.skybox_batch_ ∈ b ∧
      drawnUnder cmds st =
        [(w.app.batch_, .rotated (.ofCamera w.app.camera_) w.app.arcball_.getQuat),
         (w.app.skybox_batch_, .rotated (.ofCamera w.app.camera_) w.app.arcball_.getQuat)] ∧
      runMatrices cmds st = runMatrices a st ∧
      runMatrices cmds st = ⟨.ofCamera w.app.camera_, st.below⟩ ∧
      (runMatrices cmds st).depth = st.depth := by
  refine ⟨drawCalls w.app,
    [.enableDepthWrite, .enableDepthRead, .clear ⟨0, 0, 0⟩,
      .scopedDepthEnter true, .scopedDepthExit,
      .textureBind w.app.radianceMap_ 0, .textureBind w.app.irradianceMap_ 1,
      .uniform w.app.batch_.getGlslProg "radianceMap" (.int 0),
      .uniform w.app.batch_.getGlslProg "irradianceMap" (.int 1),
      .uniform w.app.batch_.getGlslProg "baseColor" (.color w.app.base_color_),
      .uniform w.app.batch_.getGlslProg "specular" (.float w.app.specular_),
      .uniform w.app.batch_.getGlslProg "exposure" (.float w.app.exposure_),
      .uniform w.app.batch_.getGlslProg "gamma" (.float w.app.gamma_),
      .uniform w.app.batch_.getGlslProg "roughness" (.float w.app.roughness_),
      .uniform w.app.batch_.getGlslProg "metallic" (.float w.app.metallic_),
      .setMatrices w.app.camera_],
    [.batchDraw w.app.batch_,
      .uniform w.app.skybox_batch_.getGlslProg "exposure" (.float w.app.exposure_),
      .uniform w.app.skybox_batch_.getGlslProg "gamma" (.float w.app.gamma_),
      .batchDraw w.app.skybox_batch_],
    [.textureUnbind w.app.irradianceMap_ 1, .textureUnbind w.app.radianceMap_ 0],
    draw_run w, rfl, ?_, ?_, ?_, ?_, rfl, rfl, rfl, rfl⟩
  · simp [drawCalls]
  · simp [drawCalls]
  · simp
  · simp

end Cinderella
